import Mathlib

/-!
Verification development for the job-submission and status-polling client
in src/Sample/client_simulations.py.

The Python module is shallowly embedded: dictionaries become association
lists or structures, floats become rationals (reals where trigonometry is
involved), `sys.exit` and uncaught exceptions become `Except.error`, and
the blocking HTTP calls of the polling loops are replaced by scripted
response sequences.  Logging and sleeping are pure I/O and are not
modelled.
-/

namespace ClientSimulations

/-- Fatal-termination messages: `sys.exit(errno.EINVAL)` and uncaught
exceptions are both embedded as `Except.error` carrying a message. -/
abbrev Err := String

deriving instance DecidableEq for Except

/-! ## Job-status responses and their handlers

A polled status response, per the response shape used by the client:
an HTTP status code plus the JSON body
`(state, progress, error, errorMessages)`. -/

/-- One response to a status poll (`simulations/.../status`,
`predictiongroups/.../status` or `postprocessings/.../status`). -/
structure StatusResponse where
  statusCode : Nat
  state : String
  progress : Int
  error : String
  errorMessages : List String
deriving DecidableEq, Repr

/-- Embeds `handle_pull_simulation_status_response` (source lines 888-923).
Returns the loop-control code: 0 success, 1 keep waiting; `sys.exit`
on ERROR and CANCELED becomes `Except.error`.  The `update_progress`
display call is pure I/O and is not modelled. -/
def handle_pull_simulation_status_response (response : StatusResponse) : Except Err Int :=
  if response.state = "WAITING" then .ok 1
  else if response.state = "ERROR" then
    .error ("Error simulation : " ++ response.error)
  else if response.state = "DONE" then .ok 0
  else if response.state = "DONE_WITH_ERROR" then .ok 0
  else if response.state = "CANCELED" then
    .error "Simulation has been cancelled. The calculation was stopped."
  else .ok 1

/-- Embeds `handle_pull_post_processing_status_response` (source lines
956-984).  Codes: 0 success, 1 keep waiting, 2 retry once.  Note the
source has no DONE_WITH_ERROR branch: that state falls through to the
final `return 1`. -/
def handle_pull_post_processing_status_response (response : StatusResponse)
    (retry : Bool) : Except Err Int :=
  if response.state = "WAITING" then .ok 1
  else if response.state = "ERROR" then
    if retry then .ok 2
    else .error ("Error post processing : " ++ response.error)
  else if response.state = "DONE" then .ok 0
  else if response.state = "CANCELED" then
    .error "Post processing has been cancelled. The calculation was stopped."
  else .ok 1

/-- Embeds `handle_pull_prediction_group_status_response` (source lines
1180-1218).  On a second ERROR the source calls `get_predictions_errors`,
which logs per-prediction detail and then unconditionally exits; that
whole path is embedded as `Except.error`. -/
def handle_pull_prediction_group_status_response (response : StatusResponse)
    (retry : Bool) : Except Err Int :=
  if response.state = "WAITING" then .ok 1
  else if response.state = "ERROR" then
    if retry then .ok 2
    else .error "Error prediction group"
  else if response.state = "DONE" then .ok 0
  else if response.state = "DONE_WITH_ERROR" then .ok 0
  else if response.state = "CANCELED" then
    .error "Prediction group has been cancelled. The calculation was stopped."
  else .ok 1

/-- Outcome of running a polling loop against a finite scripted sequence
of responses.  `pending` means the script was exhausted with the loop
still polling (the real loop would sleep and poll again). -/
inductive PollResult where
  | success
  | fatal (msg : Err)
  | unreachable
  | pending
deriving DecidableEq, Repr

/-- Embeds the `pull_simulation_status` loop (source lines 862-885) over a
scripted response sequence.  A 404 stops polling (server unreachable);
otherwise the handler decides: 0 breaks with success, any other code
polls again. -/
def pull_simulation_status : List StatusResponse → PollResult
  | [] => .pending
  | res :: rest =>
    if res.statusCode ≠ 404 then
      match handle_pull_simulation_status_response res with
      | .error e => .fatal e
      | .ok code => if code = 0 then .success else pull_simulation_status rest
    else .unreachable

/-- Embeds the `pull_post_processing_status` loop (source lines 926-953):
`retry` starts `True`; a handler code 2 clears it, 0 breaks with
success, anything else polls again with `retry` unchanged. -/
def pull_post_processing_status : Bool → List StatusResponse → PollResult
  | _, [] => .pending
  | retry, res :: rest =>
    if res.statusCode ≠ 404 then
      match handle_pull_post_processing_status_response res retry with
      | .error e => .fatal e
      | .ok code =>
        if code = 2 then pull_post_processing_status false rest
        else if code = 0 then .success
        else pull_post_processing_status retry rest
    else .unreachable

/-- Embeds the `pull_prediction_group_status` loop (source lines
1150-1177), with the same retry bookkeeping as the post-processing
loop. -/
def pull_prediction_group_status : Bool → List StatusResponse → PollResult
  | _, [] => .pending
  | retry, res :: rest =>
    if res.statusCode ≠ 404 then
      match handle_pull_prediction_group_status_response res retry with
      | .error e => .fatal e
      | .ok code =>
        if code = 2 then pull_prediction_group_status false rest
        else if code = 0 then .success
        else pull_prediction_group_status retry rest
    else .unreachable

/-! ## Theorems about the status poller (claims C2, C4, C10) -/

/-- C2 counterexample: the claim says all three status handlers treat
DONE_WITH_ERROR as terminal-success (return 0, loop stops).  For the
post-processing handler this is false: at a concrete DONE_WITH_ERROR
response it returns the continue-polling code 1, not 0, and the
post-processing polling loop keeps polling past it (script exhausted,
not success). -/
theorem claim2_counterexample :
    handle_pull_post_processing_status_response
      ⟨200, "DONE_WITH_ERROR", 50, "", []⟩ true = Except.ok 1 ∧
    ¬ (handle_pull_post_processing_status_response
      ⟨200, "DONE_WITH_ERROR", 50, "", []⟩ true = Except.ok 0) ∧
    pull_post_processing_status true [⟨200, "DONE_WITH_ERROR", 50, "", []⟩] =
      PollResult.pending := by
  decide

/-- C2 amended: a DONE_WITH_ERROR status response is terminal-success
(handler returns 0) for simulation polling and prediction-group polling;
the post-processing handler has no DONE_WITH_ERROR branch and returns the
continue-polling code 1, so its loop keeps polling. -/
theorem claim2_amended (r : StatusResponse) (rt : Bool)
    (h : r.state = "DONE_WITH_ERROR") :
    handle_pull_simulation_status_response r = Except.ok 0 ∧
    handle_pull_prediction_group_status_response r rt = Except.ok 0 ∧
    handle_pull_post_processing_status_response r rt = Except.ok 1 := by
  obtain ⟨sc, st, pr, er, em⟩ := r
  cases h
  refine ⟨rfl, rfl, rfl⟩

/-- C2 witness: the amended statement instantiated at a concrete
DONE_WITH_ERROR response. -/
theorem claim2_witness :
    handle_pull_simulation_status_response ⟨200, "DONE_WITH_ERROR", 80, "", []⟩ =
      Except.ok 0 ∧
    handle_pull_prediction_group_status_response ⟨200, "DONE_WITH_ERROR", 80, "", []⟩
      true = Except.ok 0 ∧
    handle_pull_post_processing_status_response ⟨200, "DONE_WITH_ERROR", 80, "", []⟩
      true = Except.ok 1 :=
  claim2_amended ⟨200, "DONE_WITH_ERROR", 80, "", []⟩ true rfl

/-- C4: prediction-group polling retries exactly once on ERROR.  Over any
scripted sequence of responses: an ERROR response reached while the retry
is still available makes the loop continue with the retry consumed; an
ERROR response reached after the retry was consumed is fatal (after the
best-effort per-prediction error fetch, which itself always exits); in
particular the script WAITING, WAITING, ERROR, DONE ends in terminal
success and the script ERROR, ERROR ends in a fatal exit. -/
theorem claim4_theorem :
    (∀ (r : StatusResponse) (rest : List StatusResponse),
        r.statusCode ≠ 404 → r.state = "ERROR" →
        pull_prediction_group_status true (r :: rest) =
          pull_prediction_group_status false rest) ∧
    (∀ (r : StatusResponse) (rest : List StatusResponse),
        r.statusCode ≠ 404 → r.state = "ERROR" →
        pull_prediction_group_status false (r :: rest) =
          PollResult.fatal "Error prediction group") ∧
    pull_prediction_group_status true
      [⟨200, "WAITING", 10, "", []⟩, ⟨200, "WAITING", 60, "", []⟩,
       ⟨200, "ERROR", 60, "step failed", []⟩, ⟨200, "DONE", 100, "", []⟩] =
      PollResult.success ∧
    pull_prediction_group_status true
      [⟨200, "ERROR", 10, "step failed", []⟩, ⟨200, "ERROR", 10, "step failed", []⟩] =
      PollResult.fatal "Error prediction group" := by
  refine ⟨?_, ?_, by decide, by decide⟩ <;>
    · intro r rest hsc hst
      obtain ⟨sc, st, pr, er, em⟩ := r
      cases hst
      simp only [pull_prediction_group_status,
        handle_pull_prediction_group_status_response] at hsc ⊢
      simp [hsc]

/-- C4 witness: the quantified parts of the retry theorem instantiated at
concrete ERROR responses. -/
theorem claim4_witness :
    pull_prediction_group_status true
      [⟨200, "ERROR", 0, "", []⟩, ⟨200, "DONE", 100, "", []⟩] =
      pull_prediction_group_status false [⟨200, "DONE", 100, "", []⟩] ∧
    pull_prediction_group_status false [⟨200, "ERROR", 0, "", []⟩] =
      PollResult.fatal "Error prediction group" :=
  ⟨claim4_theorem.1 ⟨200, "ERROR", 0, "", []⟩ [⟨200, "DONE", 100, "", []⟩]
      (by decide) rfl,
   claim4_theorem.2.1 ⟨200, "ERROR", 0, "", []⟩ [] (by decide) rfl⟩

/-- C10: on a status response whose state is none of WAITING, ERROR, DONE,
DONE_WITH_ERROR, CANCELED, each of the three handlers returns the
continue-polling code 1 and does not terminate the process, and each
enclosing polling loop just keeps polling. -/
theorem claim10_theorem (r : StatusResponse)
    (h : r.state ∉ ["WAITING", "ERROR", "DONE", "DONE_WITH_ERROR", "CANCELED"])
    (hsc : r.statusCode ≠ 404) :
    handle_pull_simulation_status_response r = Except.ok 1 ∧
    (∀ rt, handle_pull_post_processing_status_response r rt = Except.ok 1) ∧
    (∀ rt, handle_pull_prediction_group_status_response r rt = Except.ok 1) ∧
    (∀ rest, pull_simulation_status (r :: rest) = pull_simulation_status rest) ∧
    (∀ rt rest, pull_post_processing_status rt (r :: rest) =
        pull_post_processing_status rt rest) ∧
    (∀ rt rest, pull_prediction_group_status rt (r :: rest) =
        pull_prediction_group_status rt rest) := by
  simp only [List.mem_cons, List.not_mem_nil, or_false, not_or] at h
  obtain ⟨h1, h2, h3, h4, h5⟩ := h
  have hs : handle_pull_simulation_status_response r = Except.ok 1 := by
    simp [handle_pull_simulation_status_response, h1, h2, h3, h4, h5]
  have hp : ∀ rt, handle_pull_post_processing_status_response r rt = Except.ok 1 := by
    intro rt
    simp [handle_pull_post_processing_status_response, h1, h2, h3, h5]
  have hg : ∀ rt, handle_pull_prediction_group_status_response r rt = Except.ok 1 := by
    intro rt
    simp [handle_pull_prediction_group_status_response, h1, h2, h3, h4, h5]
  refine ⟨hs, hp, hg, ?_, ?_, ?_⟩
  · intro rest
    simp [pull_simulation_status, hsc, hs]
  · intro rt rest
    simp [pull_post_processing_status, hsc, hp]
  · intro rt rest
    simp [pull_prediction_group_status, hsc, hg]

/-- C10 witness: the unrecognized-state behaviour instantiated at a
concrete response with state UNKNOWN. -/
theorem claim10_witness :
    handle_pull_simulation_status_response ⟨200, "UNKNOWN", 5, "", []⟩ =
      Except.ok 1 ∧
    pull_simulation_status [⟨200, "UNKNOWN", 5, "", []⟩] = pull_simulation_status [] :=
  ⟨(claim10_theorem ⟨200, "UNKNOWN", 5, "", []⟩ (by decide) (by decide)).1,
   (claim10_theorem ⟨200, "UNKNOWN", 5, "", []⟩ (by decide) (by decide)).2.2.2.1 []⟩

/-! ## Authenticated requests and the 403 refresh retry (claim C5)

The HTTP transport is an external collaborator: it is modelled as a
function from the physical attempt number and the request tuple to a
response.  `refresh_token` either succeeds (replacing the process-wide
token pair, which no modelled claim observes) or exits fatally; that
outcome is the `refreshOk` flag. -/

/-- The argument tuple of `call_request`: method, URL, optional files,
JSON body, query params and timeout (source lines 1610-1612). -/
structure Request where
  method : String
  url : String
  files : Option String := none
  jsonContent : Option String := none
  params : Option String := none
  timeout : Option Nat := none
deriving DecidableEq, Repr

/-- A transport-level HTTP response: status code plus opaque body. -/
structure HttpResponse where
  statusCode : Nat
  body : String := ""
deriving DecidableEq, Repr

/-- Embeds `call_request` (source lines 1610-1656).  `send n req` is the
transport response to the n-th physical attempt; `attempt` is the index
of the next attempt.  On a 403 with `retry = 0` the token is refreshed
(fatal exit if the refresh fails) and the same request tuple is resent
with `retry = 1`.  The returned list records every request physically
issued, in order. -/
def call_request (send : Nat → Request → HttpResponse) (refreshOk : Bool)
    (attempt : Nat) (req : Request) (retry : Nat) :
    Except Err (HttpResponse × List Request) :=
  let res := send attempt req
  if h : res.statusCode = 403 ∧ retry = 0 then
    if refreshOk then
      match call_request send refreshOk (attempt + 1) req 1 with
      | .ok (res2, log) => .ok (res2, req :: log)
      | .error e => .error e
    else .error "Error call get refresh token"
  else .ok (res, [req])
termination_by 1 - retry
decreasing_by
  have := h.2
  omega

/-- C5: with retry count 0, a 403 response triggers one token refresh and
one resend of the exact same request tuple, and the caller gets the
second attempt response whatever it is; in particular a second 403 is
propagated unmodified, with exactly two requests ever issued. -/
theorem claim5_theorem (send : Nat → Request → HttpResponse) (req : Request)
    (h403 : (send 0 req).statusCode = 403) :
    call_request send true 0 req 0 = Except.ok (send 1 req, [req, req]) ∧
    ((send 1 req).statusCode = 403 →
      call_request send true 0 req 0 = Except.ok (send 1 req, [req, req])) := by
  have hinner : call_request send true 1 req 1 = Except.ok (send 1 req, [req]) := by
    rw [call_request]
    simp
  have houter : call_request send true 0 req 0 = Except.ok (send 1 req, [req, req]) := by
    rw [call_request]
    simp [h403, hinner]
  exact ⟨houter, fun _ => houter⟩

/-- C5 witness: a transport that answers 403 then 200; the request is
resent once and the 200 response is returned. -/
theorem claim5_witness :
    call_request
      (fun n _ => if n = 0 then (⟨403, ""⟩ : HttpResponse) else ⟨200, "ok"⟩)
      true 0 ⟨"GET", "simulations/u/status", none, none, none, none⟩ 0 =
    Except.ok
      ((fun n (_ : Request) =>
          if n = 0 then (⟨403, ""⟩ : HttpResponse) else ⟨200, "ok"⟩) 1
        ⟨"GET", "simulations/u/status", none, none, none, none⟩,
       [⟨"GET", "simulations/u/status", none, none, none, none⟩,
        ⟨"GET", "simulations/u/status", none, none, none, none⟩]) :=
  (claim5_theorem
    (fun n _ => if n = 0 then (⟨403, ""⟩ : HttpResponse) else ⟨200, "ok"⟩)
    ⟨"GET", "simulations/u/status", none, none, none, none⟩ rfl).1

/-! ## Result-manifest settle-and-retry (claim C9) -/

/-- One response of the `simulations/.../results` manifest endpoint:
status code plus the manifest body (a list of result descriptors,
abstracted to their file names). -/
structure ManifestResponse where
  statusCode : Nat
  manifest : List String
deriving DecidableEq, Repr

/-- Embeds the manifest retry loop opening `download_simulation_results`
(source lines 1001-1014): `i` counts down from 3; each iteration issues
one GET whose response is `resp calls`; a 404 or 400 status exits
fatally; a non-empty manifest breaks out.  Returns the manifest retained
when the loop ends together with the number of manifest calls issued.
When all attempts return empty the loop falls through with the (empty)
last body. -/
def download_simulation_results_manifest (resp : Nat → ManifestResponse) :
    Nat → Nat → Except Err (List String × Nat)
  | 0, calls => .ok ([], calls)
  | i + 1, calls =>
    let res := resp calls
    if res.statusCode = 404 ∨ res.statusCode = 400 then
      .error "Error simulation"
    else if res.manifest.length > 0 then .ok (res.manifest, calls + 1)
    else download_simulation_results_manifest resp i (calls + 1)

/-- The manifest phase of `download_simulation_results`: up to 3 attempts
starting from zero calls issued.  The artifact-download phase that
follows in the source is not touched by the claims and is not modelled. -/
def download_simulation_results (resp : Nat → ManifestResponse) :
    Except Err (List String × Nat) :=
  download_simulation_results_manifest resp 3 0

/-- C9: the empty-manifest fetch is retried up to 3 times in total, and a
404 or 400 status on any attempt is immediately fatal regardless of the
remaining retry budget: (1) whenever the next response is a 404/400 the
loop exits fatally at once, for every remaining-budget value; (2) three
empty 200 responses consume exactly 3 calls and end the loop; (3) a
first non-empty manifest at attempt k ends the loop successfully after
exactly k+1 calls. -/
theorem claim9_theorem (resp : Nat → ManifestResponse) :
    (∀ i calls, ((resp calls).statusCode = 404 ∨ (resp calls).statusCode = 400) →
      download_simulation_results_manifest resp (i + 1) calls =
        Except.error "Error simulation") ∧
    ((∀ k, k < 3 → (resp k).statusCode = 200 ∧ (resp k).manifest = []) →
      download_simulation_results resp = Except.ok ([], 3)) ∧
    (∀ k, k < 3 →
      (∀ j, j < k → (resp j).statusCode = 200 ∧ (resp j).manifest = []) →
      (resp k).statusCode = 200 → (resp k).manifest ≠ [] →
      download_simulation_results resp = Except.ok ((resp k).manifest, k + 1)) := by
  refine ⟨?_, ?_, ?_⟩
  · intro i calls hbad
    simp [download_simulation_results_manifest, hbad]
  · intro h
    obtain ⟨h0s, h0m⟩ := h 0 (by omega)
    obtain ⟨h1s, h1m⟩ := h 1 (by omega)
    obtain ⟨h2s, h2m⟩ := h 2 (by omega)
    simp [download_simulation_results, download_simulation_results_manifest,
      h0s, h0m, h1s, h1m, h2s, h2m]
  · intro k hk hpre hks hkm
    have hlen : 0 < (resp k).manifest.length := List.length_pos.mpr hkm
    interval_cases k
    · simp [download_simulation_results, download_simulation_results_manifest,
        hks, hlen]
    · obtain ⟨h0s, h0m⟩ := hpre 0 (by omega)
      simp [download_simulation_results, download_simulation_results_manifest,
        h0s, h0m, hks, hlen]
    · obtain ⟨h0s, h0m⟩ := hpre 0 (by omega)
      obtain ⟨h1s, h1m⟩ := hpre 1 (by omega)
      simp [download_simulation_results, download_simulation_results_manifest,
        h0s, h0m, h1s, h1m, hks, hlen]

/-- C9 witness: a 404 on the second attempt is fatal with the first
attempt empty, and three empty manifests end with 3 calls issued. -/
theorem claim9_witness :
    download_simulation_results_manifest (fun _ => ⟨404, []⟩) 3 0 =
      Except.error "Error simulation" ∧
    download_simulation_results (fun _ => ⟨200, []⟩) = Except.ok ([], 3) :=
  ⟨(claim9_theorem (fun _ => ⟨404, []⟩)).1 2 0 (Or.inl rfl),
   (claim9_theorem (fun _ => ⟨200, []⟩)).2.1 (fun _ _ => ⟨rfl, rfl⟩)⟩

/-! ## JSON documents, `sorting_json` and resource validation (claim C3) -/

/-- Parsed JSON values, as handled by the resource resolver. -/
inductive Json where
  | null
  | bool (b : Bool)
  | num (n : Int)
  | str (s : String)
  | arr (xs : List Json)
  | obj (kvs : List (String × Json))

mutual
/-- Structural equality of JSON values, embedding Python `==` / `!=` on
parsed JSON documents. -/
def Json.beq : Json → Json → Bool
  | .null, .null => true
  | .bool a, .bool b => a = b
  | .num a, .num b => a = b
  | .str a, .str b => a = b
  | .arr xs, .arr ys => Json.beqList xs ys
  | .obj xs, .obj ys => Json.beqPairs xs ys
  | _, _ => false

/-- Elementwise equality of JSON lists. -/
def Json.beqList : List Json → List Json → Bool
  | [], [] => true
  | x :: xs, y :: ys => Json.beq x y && Json.beqList xs ys
  | _, _ => false

/-- Elementwise equality of key-value pair lists. -/
def Json.beqPairs : List (String × Json) → List (String × Json) → Bool
  | [], [] => true
  | (k, v) :: xs, (l, w) :: ys => k = l && Json.beq v w && Json.beqPairs xs ys
  | _, _ => false
end

mutual
/-- Reflexivity of JSON structural equality. -/
theorem Json.beq_refl : ∀ j : Json, Json.beq j j = true
  | .null => rfl
  | .bool b => by simp [Json.beq]
  | .num n => by simp [Json.beq]
  | .str s => by simp [Json.beq]
  | .arr xs => by simp [Json.beq, Json.beqList_refl xs]
  | .obj kvs => by simp [Json.beq, Json.beqPairs_refl kvs]

/-- Reflexivity of JSON list equality. -/
theorem Json.beqList_refl : ∀ xs : List Json, Json.beqList xs xs = true
  | [] => rfl
  | x :: xs => by simp [Json.beqList, Json.beq_refl x, Json.beqList_refl xs]

/-- Reflexivity of JSON pair-list equality. -/
theorem Json.beqPairs_refl : ∀ kvs : List (String × Json), Json.beqPairs kvs kvs = true
  | [] => rfl
  | (k, v) :: kvs => by simp [Json.beqPairs, Json.beq_refl v, Json.beqPairs_refl kvs]
end

/-- Lexicographic strict order on character lists by code point. -/
def charListLt : List Char → List Char → Bool
  | [], [] => false
  | [], _ :: _ => true
  | _ :: _, [] => false
  | c :: cs, d :: ds =>
    c.toNat < d.toNat || (c.toNat = d.toNat && charListLt cs ds)

/-- Lexicographic strict order on strings (Python string comparison). -/
def strLt (a b : String) : Bool := charListLt a.data b.data

/-- Lexicographic order on strings. -/
def strLe (a b : String) : Bool := strLt a b || a = b

/-- Constructor rank, used to order values of different shapes. -/
def Json.rank : Json → Nat
  | .null => 0
  | .bool _ => 1
  | .num _ => 2
  | .str _ => 3
  | .arr _ => 4
  | .obj _ => 5

mutual
/-- Total comparison on JSON values: within a shape, contents are compared
(lists and objects lexicographically); across shapes, by rank.  Stands in
for the comparison Python `sorted` applies to the nested lists produced
by `sorting_json`. -/
def jsonLe : Json → Json → Bool
  | .null, .null => true
  | .bool a, .bool b => !a || b
  | .num a, .num b => a ≤ b
  | .str a, .str b => strLe a b
  | .arr xs, .arr ys => jsonListLe xs ys
  | .obj xs, .obj ys => jsonPairsLe xs ys
  | a, b => a.rank ≤ b.rank

/-- Lexicographic comparison of JSON lists. -/
def jsonListLe : List Json → List Json → Bool
  | [], _ => true
  | _ :: _, [] => false
  | x :: xs, y :: ys => if Json.beq x y then jsonListLe xs ys else jsonLe x y

/-- Lexicographic comparison of key-value pair lists: key first, then
value, as Python compares `(key, value)` tuples. -/
def jsonPairsLe : List (String × Json) → List (String × Json) → Bool
  | [], _ => true
  | _ :: _, [] => false
  | (k, v) :: xs, (l, w) :: ys =>
    if k = l then (if Json.beq v w then jsonPairsLe xs ys else jsonLe v w)
    else strLt k l
end

/-- Inserts into a list sorted by `le` (helper of the insertion sort). -/
def insertSortedBy (le : α → α → Bool) (a : α) : List α → List α
  | [] => [a]
  | b :: bs => if le a b then a :: b :: bs else b :: insertSortedBy le a bs

/-- Insertion sort by a boolean comparison, embedding Python `sorted`. -/
def sortListBy (le : α → α → Bool) : List α → List α
  | [] => []
  | a :: as => insertSortedBy le a (sortListBy le as)

/-- Comparison for object entries: key first, then value. -/
def jsonPairLe (a b : String × Json) : Bool :=
  if a.1 = b.1 then jsonLe a.2 b.2 else strLt a.1 b.1

mutual
/-- Embeds `sorting_json` (source lines 243-255): recursively sorts object
entries and array elements, producing the canonical form used for
duplicate-versus-conflict detection.  Python turns dicts into sorted
lists of pairs; here the object constructor is kept with its entries
sorted, which preserves the induced equivalence. -/
def sorting_json : Json → Json
  | .null => .null
  | .bool b => .bool b
  | .num n => .num n
  | .str s => .str s
  | .arr xs => .arr (sortListBy jsonLe (sortingJsonList xs))
  | .obj kvs => .obj (sortListBy jsonPairLe (sortingJsonPairs kvs))

/-- Maps `sorting_json` over array elements. -/
def sortingJsonList : List Json → List Json
  | [] => []
  | x :: xs => sorting_json x :: sortingJsonList xs

/-- Maps `sorting_json` over object entry values. -/
def sortingJsonPairs : List (String × Json) → List (String × Json)
  | [] => []
  | (k, v) :: kvs => (k, sorting_json v) :: sortingJsonPairs kvs
end

/-- Replaces the value under a key, or appends the pair (Python dict
assignment). -/
def setPairs : List (String × Json) → String → Json → List (String × Json)
  | [], k, v => [(k, v)]
  | (k1, v1) :: rest, k, v =>
    if k1 = k then (k, v) :: rest else (k1, v1) :: setPairs rest k v

/-- Removes a key (Python `dict.pop` / `del`). -/
def removePairs : List (String × Json) → String → List (String × Json)
  | [], _ => []
  | (k1, v) :: rest, k => if k1 = k then rest else (k1, v) :: removePairs rest k

/-- Python `d[k]` on a JSON object: `KeyError` (a crash that kills the
run) is embedded as an error. -/
def Json.item (j : Json) (k : String) : Except Err Json :=
  match j with
  | .obj kvs =>
    match kvs.lookup k with
    | some v => .ok v
    | none => .error ("KeyError: " ++ k)
  | _ => .error ("TypeError: not an object: " ++ k)

/-- Python `k in d` on a JSON object. -/
def Json.hasKey (j : Json) (k : String) : Bool :=
  match j with
  | .obj kvs => (kvs.lookup k).isSome
  | _ => false

/-- Python `d[k] = v` on a JSON object. -/
def Json.setItem (j : Json) (k : String) (v : Json) : Json :=
  match j with
  | .obj kvs => .obj (setPairs kvs k v)
  | _ => j

/-- Python `del d[k]` on a JSON object. -/
def Json.removeKey (j : Json) (k : String) : Json :=
  match j with
  | .obj kvs => .obj (removePairs kvs k)
  | _ => j

/-- Lookup in an association list keyed by JSON values (the
`antenna_validated` / `mapdata_validated` dict, whose keys are the
resource names). -/
def lookupByKey (seen : List (Json × Json)) (k : Json) : Option Json :=
  match seen with
  | [] => none
  | (k1, v1) :: rest => if Json.beq k1 k then some v1 else lookupByKey rest k

/-- Assignment in an association list keyed by JSON values. -/
def setByKey (seen : List (Json × Json)) (k : Json) (v : Json) :
    List (Json × Json) :=
  match seen with
  | [] => [(k, v)]
  | (k1, v1) :: rest =>
    if Json.beq k1 k then (k, v) :: rest else (k1, v1) :: setByKey rest k v

/-- Shared body of `validate_antennas` (source lines 364-378) and
`validate_mapdatas` (source lines 571-585), which are textually identical
up to the resource kind in the message: walk the list keeping
name-to-sorted-content assignments; a name already seen with a different
sorted content is a fatal error; otherwise the entry is (re)recorded. -/
def validateResourcesLoop (kind : String) :
    List Json → List (Json × Json) → Except Err Unit
  | [], _ => .ok ()
  | res :: rest, seen => do
    let nm ← res.item "name"
    match lookupByKey seen nm with
    | some prev =>
      if Json.beq prev (sorting_json res) = false then
        .error ("Error " ++ kind ++ " : two " ++ kind ++
          "s have the same name but different contents")
      else validateResourcesLoop kind rest (setByKey seen nm (sorting_json res))
    | none => validateResourcesLoop kind rest (setByKey seen nm (sorting_json res))

/-- Embeds `validate_antennas` (source lines 364-378). -/
def validate_antennas (antenna_list : List Json) : Except Err Unit :=
  validateResourcesLoop "antenna" antenna_list []

/-- Embeds `validate_mapdatas` (source lines 571-585). -/
def validate_mapdatas (mapdata_list : List Json) : Except Err Unit :=
  validateResourcesLoop "mapdata" mapdata_list []

/-- Embeds `get_resource_uuid_from_cache` (source lines 309-323). -/
def get_resource_uuid_from_cache (resource_type : String)
    (resource_cache : List (String × String)) (resource_name : String) :
    Except Err String :=
  match resource_cache.lookup resource_name with
  | some u => .ok u
  | none => .error ("Error " ++ resource_type ++ " " ++ resource_name ++ " : not found")

/-- Loop body of `create_model` (source lines 615-659).  `server` scripts
the response body of each POST to `propagationmodels`, indexed by the
number of calls already issued; the client-side `uuid.uuid4()` is a
placeholder since the server uuid supersedes it.  Returns the
name-to-uuid dict and the number of network calls issued.  Note there is
no duplicate-name validation anywhere in this function. -/
def createModelLoop (mapdata_dict : List (String × String))
    (session_uuid : String) (server : Nat → Json) :
    List Json → List (Json × Json) → Nat → Except Err (List (Json × Json) × Nat)
  | [], dict, calls => .ok (dict, calls)
  | model :: rest, dict, calls => do
    let model1 := model.setItem "uuid" (.str "client-generated-uuid")
    let model2 ←
      if model1.hasKey "mapdataName" then do
        let mn ← model1.item "mapdataName"
        match mn with
        | .str s => do
          let mu ← get_resource_uuid_from_cache "Mapdata" mapdata_dict s
          pure ((model1.setItem "mapdataUuid" (.str mu)).removeKey "mapdataName")
        | _ => Except.error "TypeError: mapdataName is not a string"
      else pure model1
    let model3 := model2.setItem "sessionUuid" (.str session_uuid)
    let pair1 :=
      if model3.hasKey "vxfFilePath" then (some (server calls), calls + 1)
      else ((none : Option Json), calls)
    let pair2 :=
      if model3.hasKey "type" then (some (server pair1.2), pair1.2 + 1)
      else pair1
    match pair2.1 with
    | none =>
      Except.error "Error model : there is no vxfFilePath or type key in this model"
    | some result => do
      let statusBad :=
        match result with
        | .obj kvs =>
          match kvs.lookup "status" with
          | some v => !(Json.beq v (.num 406))
          | none => false
        | _ => false
      if statusBad then
        Except.error "Error model : server rejection"
      else do
        let u ← result.item "uuid"
        let nm ← model3.item "name"
        createModelLoop mapdata_dict session_uuid server rest (setByKey dict nm u)
          pair2.2

/-- Embeds `create_model` (source lines 615-659). -/
def create_model (model_list : List Json) (mapdata_dict : List (String × String))
    (session_uuid : String) (server : Nat → Json) :
    Except Err (List (Json × Json) × Nat) :=
  createModelLoop mapdata_dict session_uuid server model_list [] 0

/-- C3 counterexample: the claim says that for each of the three resource
kinds, two same-name different-content entries abort before any network
call.  For propagation models this is false at a concrete input: two
models both named M with different type fields are accepted by
`create_model`, which issues two creation calls and returns the second
uuid for the shared name.  The contents really differ after
normalization. -/
theorem claim3_counterexample :
    create_model
      [Json.obj [("name", Json.str "M"), ("type", Json.str "A")],
       Json.obj [("name", Json.str "M"), ("type", Json.str "B")]]
      [] "sess"
      (fun k => Json.obj [("uuid", Json.str (if k = 0 then "u0" else "u1"))]) =
      Except.ok ([(Json.str "M", Json.str "u1")], 2) ∧
    Json.beq (sorting_json (Json.obj [("name", Json.str "M"), ("type", Json.str "A")]))
      (sorting_json (Json.obj [("name", Json.str "M"), ("type", Json.str "B")])) =
      false :=
  ⟨rfl, by decide⟩

/-- C3 amended: for antennas and map data the duplicate check runs before
any network call and behaves as claimed: a repeated name with a different
normalized content is a fatal error, while a repeated name with contents
equal after normalization passes; propagation models are not checked at
all, and `create_model` issues a creation call for every entry regardless
of name conflicts (shown at the concrete duplicate pair). -/
theorem claim3_amended (a b nm : Json)
    (ha : a.item "name" = Except.ok nm) (hb : b.item "name" = Except.ok nm) :
    (Json.beq (sorting_json a) (sorting_json b) = false →
      validate_antennas [a, b] =
        Except.error "Error antenna : two antennas have the same name but different contents" ∧
      validate_mapdatas [a, b] =
        Except.error "Error mapdata : two mapdatas have the same name but different contents") ∧
    (Json.beq (sorting_json a) (sorting_json b) = true →
      validate_antennas [a, b] = Except.ok () ∧
      validate_mapdatas [a, b] = Except.ok ()) ∧
    create_model
      [Json.obj [("name", Json.str "M"), ("type", Json.str "A")],
       Json.obj [("name", Json.str "M"), ("type", Json.str "B")]]
      [] "sess"
      (fun k => Json.obj [("uuid", Json.str (if k = 0 then "u0" else "u1"))]) =
      Except.ok ([(Json.str "M", Json.str "u1")], 2) := by
  refine ⟨fun hne => ?_, fun heq => ?_, rfl⟩
  · constructor <;>
      simp [validate_antennas, validate_mapdatas, validateResourcesLoop, ha, hb,
        Bind.bind, Except.bind, lookupByKey, setByKey, Json.beq_refl, hne]
  · constructor <;>
      simp [validate_antennas, validate_mapdatas, validateResourcesLoop, ha, hb,
        Bind.bind, Except.bind, lookupByKey, setByKey, Json.beq_refl, heq]

/-- C3 witness: two antennas named A whose key order differs but whose
normalized contents agree pass validation; flipping one value makes both
validators fail fatally. -/
theorem claim3_witness :
    (validate_antennas
        [Json.obj [("name", Json.str "A"), ("gain", Json.num 3)],
         Json.obj [("gain", Json.num 3), ("name", Json.str "A")]] =
      Except.ok () ∧
     validate_mapdatas
        [Json.obj [("name", Json.str "A"), ("gain", Json.num 3)],
         Json.obj [("gain", Json.num 3), ("name", Json.str "A")]] =
      Except.ok ()) ∧
    (validate_antennas
        [Json.obj [("name", Json.str "A"), ("gain", Json.num 3)],
         Json.obj [("name", Json.str "A"), ("gain", Json.num 4)]] =
      Except.error "Error antenna : two antennas have the same name but different contents" ∧
     validate_mapdatas
        [Json.obj [("name", Json.str "A"), ("gain", Json.num 3)],
         Json.obj [("name", Json.str "A"), ("gain", Json.num 4)]] =
      Except.error "Error mapdata : two mapdatas have the same name but different contents") :=
  ⟨((claim3_amended
      (Json.obj [("name", Json.str "A"), ("gain", Json.num 3)])
      (Json.obj [("gain", Json.num 3), ("name", Json.str "A")])
      (Json.str "A") rfl rfl).2.1 (by decide)),
   ((claim3_amended
      (Json.obj [("name", Json.str "A"), ("gain", Json.num 3)])
      (Json.obj [("name", Json.str "A"), ("gain", Json.num 4)])
      (Json.str "A") rfl rfl).1 (by decide))⟩

/-! ## Network rows and base-station assembly (claims C6, C7)

A CSV-derived network row is a string-keyed map of string cell values
(`create_network_list` drops empty cells, but `fill_base_station` is
taken as specified on arbitrary rows). -/

/-- A network row: CSV header to cell value. -/
abbrev Row := List (String × String)

/-- Python truthiness test `key in d and d.get(key)` on rows: the key is
present with a non-empty value. -/
def presentNonempty (row : Row) (key : String) : Bool :=
  match row.lookup key with
  | some v => v ≠ ""
  | none => false

/-- Digit-string value accumulator (helper of the decimal parser). -/
def parseDigitsAux : List Char → Nat → Option Nat
  | [], acc => some acc
  | c :: cs, acc =>
    if c.isDigit then parseDigitsAux cs (acc * 10 + (c.toNat - 48)) else none

/-- Embeds Python `float()` on the decimal strings found in CSV cells:
optional sign, integer part, optional fractional part.  Exact rational
semantics stands in for IEEE floats. -/
def parseDecimal (s : String) : Option ℚ :=
  let signed : ℚ × List Char :=
    match s.data with
    | '-' :: rest => (-1, rest)
    | '+' :: rest => (1, rest)
    | cs => (1, cs)
  match signed.2.splitOn '.' with
  | [ip] =>
    if ip.isEmpty then none
    else (parseDigitsAux ip 0).map (fun n => signed.1 * (n : ℚ))
  | [ip, fp] =>
    if ip.isEmpty && fp.isEmpty then none
    else
      match parseDigitsAux ip 0, parseDigitsAux fp 0 with
      | some i, some f =>
        some (signed.1 * ((i : ℚ) + (f : ℚ) / (10 : ℚ) ^ fp.length))
      | _, _ => none
  | _ => none

/-- Embeds `get_from_dict` (source lines 210-222): the value under the
key, else the default, else a fatal error. -/
def get_from_dict (data_dict : Row) (key : String) (default : Option String) :
    Except Err String :=
  match data_dict.lookup key with
  | some v => .ok v
  | none =>
    match default with
    | some d => .ok d
    | none => .error ("Failed to get value of " ++ key ++ ", value not found")

/-- Embeds `get_float_from_dict` (source lines 225-241).  The source
round-trips the numeric default through `str`/`float`, which is the
identity; here the default is kept as a rational directly.  An
unparsable cell is a fatal error. -/
def get_float_from_dict (data_dict : Row) (key : String) (default : Option ℚ) :
    Except Err ℚ :=
  match data_dict.lookup key with
  | some v =>
    match parseDecimal v with
    | some q => .ok q
    | none => .error ("Failed to get value of " ++ key)
  | none =>
    match default with
    | some d => .ok d
    | none => .error ("Failed to get value of " ++ key ++ ", value not found")

/-- A base station as assembled by `fill_base_station`; optional Python
dict keys become `Option` fields, all absent (`none`) unless assigned.
Numbers are rationals since the source only parses and adds them. -/
structure BaseStation where
  x : ℚ
  y : ℚ
  z : ℚ
  epsgCode : Option Nat
  zmeaning : String
  azimuth : ℚ
  downtilt : ℚ
  carrierFrequency : ℚ
  description : String
  sessionUuid : String
  name : String
  networkId : String
  transmitPower : ℚ
  additionalElectricalDowntilt : Option ℚ := none
  antennaUuid : Option String := none
  techno : Option String := none
  trafficload : Option String := none
  antennaSsbUuid : Option String := none
  antennaCsiUuid : Option String := none
  epreOffsetSSVSRS : Option String := none
  epreOffsetPBCHVSRS : Option String := none
  epreOffsetPDCCHVSRS : Option String := none
  epreOffsetPDSCHVSRS : Option String := none
  nbAntennaPorts : Option String := none
  multiAntennaInterferenceFactor : Option String := none
  repeatBaseStationNetworkId : Option String := none
deriving DecidableEq, Repr

/-- The five advanced SINR CSV fields of the all-or-none rule
(source lines 499-503). -/
def mandatoryAdvancedSinrFields : List String :=
  ["epre offset ss vs rs", "epre offset pbch vs rs", "epre offset pdcch vs rs",
   "epre offset pdsch vs rs", "number antenna ports"]

/-- Embeds `fill_base_station` (source lines 441-534): coordinate-mode
selection by header presence, terrain-altitude adjustment, antenna
resolution, the 4G/5G SINR block with the all-or-none rule on the five
advanced fields, and the final 5G-repeater check, which inspects the base
station just built. -/
def fill_base_station (network : Row) (computation_type : String)
    (session_uuid : String) (antenna_dict : List (String × String)) :
    Except Err BaseStation := do
  let tll := (network.lookup "transmitter longitude").isSome &&
             (network.lookup "transmitter latitude").isSome
  let xe : Except Err ℚ :=
    if tll then get_float_from_dict network "transmitter longitude" none
    else get_float_from_dict network "transmitter easting" none
  let ye : Except Err ℚ :=
    if tll then get_float_from_dict network "transmitter latitude" none
    else get_float_from_dict network "transmitter northing" none
  let x ← xe
  let y ← ye
  let z ← get_float_from_dict network "transmitter height" none
  let az ← get_float_from_dict network "azimuth" (some 0)
  let dt ← get_float_from_dict network "downtilt" (some 0)
  let cf ← get_float_from_dict network "frequency" none
  let desc ← get_from_dict network "comments" (some "")
  let nm ← get_from_dict network "transmitter name" none
  let nid ← get_from_dict network "transmitter id" none
  let tp ← get_float_from_dict network "emitting power" (some 0)
  let bs0 : BaseStation :=
    { x := x, y := y, z := z,
      epsgCode := if tll then some 4326 else none,
      zmeaning := "ZMEANING_GROUND",
      azimuth := az, downtilt := dt, carrierFrequency := cf,
      description := desc, sessionUuid := session_uuid,
      name := nm, networkId := nid, transmitPower := tp }
  let bs1e : Except Err BaseStation :=
    if (network.lookup "additional electrical downtilt").isSome then
      (get_float_from_dict network "additional electrical downtilt" (some 0)).bind
        fun v => pure { bs0 with additionalElectricalDowntilt := some v }
    else pure bs0
  let bs1 ← bs1e
  let bs2e : Except Err BaseStation :=
    if presentNonempty network "terrain altitude" then
      (get_float_from_dict network "transmitter height" none).bind fun th =>
        (get_float_from_dict network "terrain altitude" none).bind fun ta =>
          pure { bs1 with zmeaning := "ZMEANING_ALTITUDE", z := th + ta }
    else pure bs1
  let bs2 ← bs2e
  let bs3e : Except Err BaseStation :=
    if presentNonempty network "antenna" then
      (get_from_dict network "antenna" none).bind fun an =>
        (get_resource_uuid_from_cache "Antenna" antenna_dict an).bind fun u =>
          pure { bs2 with antennaUuid := some u }
    else pure bs2
  let bs3 ← bs3e
  let tail : Except Err BaseStation :=
    if computation_type = "5G" || computation_type = "4G" then
      (get_from_dict network "techno" none).bind fun tech =>
        (get_from_dict network "trafficload" (some "0")).bind fun tl =>
          let bsA := { bs3 with techno := some tech, trafficload := some tl }
          let bsBe : Except Err BaseStation :=
            if computation_type = "5G" then
              (get_from_dict network "antenna SSB" none).bind fun ssb =>
                (get_resource_uuid_from_cache "Antenna" antenna_dict ssb).bind fun ssbU =>
                  (get_from_dict network "antenna CSI" none).bind fun csi =>
                    (get_resource_uuid_from_cache "Antenna" antenna_dict csi).bind fun csiU =>
                      pure { bsA with antennaSsbUuid := some ssbU,
                                      antennaCsiUuid := some csiU }
            else pure bsA
          bsBe.bind fun bsB =>
            let bsCe : Except Err BaseStation :=
              if computation_type = "4G" then
                let found :=
                  mandatoryAdvancedSinrFields.map (fun f => presentNonempty network f)
                if found.all (fun b => b) then
                  (get_from_dict network "epre offset ss vs rs" none).bind fun v1 =>
                    (get_from_dict network "epre offset pbch vs rs" none).bind fun v2 =>
                      (get_from_dict network "epre offset pdcch vs rs" none).bind fun v3 =>
                        (get_from_dict network "epre offset pdsch vs rs" none).bind fun v4 =>
                          (get_from_dict network "number antenna ports" none).bind fun v5 =>
                            let bsD := { bsB with
                              epreOffsetSSVSRS := some v1, epreOffsetPBCHVSRS := some v2,
                              epreOffsetPDCCHVSRS := some v3,
                              epreOffsetPDSCHVSRS := some v4,
                              nbAntennaPorts := some v5 }
                            if (network.lookup "multi antenna interference factor").isSome then
                              (get_from_dict network "multi antenna interference factor" none).bind
                                fun m =>
                                  pure { bsD with multiAntennaInterferenceFactor := some m }
                            else pure bsD
                else if found.any (fun b => b) then
                  Except.error
                    "Error base station: All or none values must be configured among the advanced SINR fields"
                else pure bsB
              else pure bsB
            bsCe.bind fun bsC =>
              if bsC.techno = some "5G" && bsC.repeatBaseStationNetworkId.isSome then
                Except.error "Error base station: Repeaters are not available for 5G computations"
              else pure bsC
    else pure bs3
  tail

/-- Projection through a successful result (helper for concrete
statements that avoid comparing rational fields). -/
def onOk (e : Except Err α) (f : α → β) : Option β :=
  match e with
  | .ok a => some (f a)
  | .error _ => none

/-- Inversion of a successful `Except` bind. -/
theorem bindOkElim {α β : Type} {e : Except Err α} {f : α → Except Err β} {b : β}
    (h : Except.bind e f = Except.ok b) : ∃ a, e = Except.ok a ∧ f a = Except.ok b := by
  cases e with
  | error msg => simp [Except.bind] at h
  | ok a => exact ⟨a, rfl, by simpa [Except.bind] using h⟩

/-- C6 counterexample: the claim says a network row carrying a 5G
repeater configuration (techno 5G together with a repeater base-station
network id) makes `fill_base_station` terminate the run fatally.  At a
concrete such row under the 4G computation type, `fill_base_station`
instead succeeds: the repeater check inspects the base station it has
just built, which never carries the repeater key, so the fatal branch
cannot fire. -/
theorem claim6_counterexample :
    onOk
      (fill_base_station
        [("transmitter id", "BS1"), ("transmitter name", "Alpha"),
         ("transmitter easting", "100.5"), ("transmitter northing", "200"),
         ("transmitter height", "30"), ("frequency", "2600"),
         ("techno", "5G"), ("repeat base station network id", "BS9")]
        "4G" "sess" [])
      (fun bs => (bs.techno, bs.repeatBaseStationNetworkId)) =
      some (some "5G", none) := by
  decide

/-- C6 amended: the 5G-repeater rejection is dead code.  For every row
and computation type, a successfully returned base station never carries
a repeater base-station network id, so in particular no 5G repeater base
station is ever returned; but rows describing a repeater configuration
are accepted, not rejected, the repeater data being silently dropped. -/
theorem claim6_amended (network : Row) (computation_type session_uuid : String)
    (antenna_dict : List (String × String)) (bs : BaseStation)
    (h : fill_base_station network computation_type session_uuid antenna_dict =
      Except.ok bs) :
    bs.repeatBaseStationNetworkId = none := by
  simp only [fill_base_station, Bind.bind, Pure.pure] at h
  obtain ⟨x, hx, h⟩ := bindOkElim h
  obtain ⟨y, hy, h⟩ := bindOkElim h
  obtain ⟨z, hz, h⟩ := bindOkElim h
  obtain ⟨az, haz, h⟩ := bindOkElim h
  obtain ⟨dt, hdt, h⟩ := bindOkElim h
  obtain ⟨cf, hcf, h⟩ := bindOkElim h
  obtain ⟨desc, hdesc, h⟩ := bindOkElim h
  obtain ⟨nm, hnm, h⟩ := bindOkElim h
  obtain ⟨nid, hnid, h⟩ := bindOkElim h
  obtain ⟨tp, htp, h⟩ := bindOkElim h
  obtain ⟨bs1, hbs1, h⟩ := bindOkElim h
  obtain ⟨bs2, hbs2, h⟩ := bindOkElim h
  obtain ⟨bs3, hbs3, h⟩ := bindOkElim h
  have hr1 : bs1.repeatBaseStationNetworkId = none := by
    split at hbs1
    · obtain ⟨v, hv, hbs1⟩ := bindOkElim hbs1
      simp only [Except.pure, Except.ok.injEq] at hbs1
      simp [← hbs1]
    · simp only [Except.pure, Except.ok.injEq] at hbs1
      simp [← hbs1]
  have hr2 : bs2.repeatBaseStationNetworkId = none := by
    split at hbs2
    · obtain ⟨th, hth, hbs2⟩ := bindOkElim hbs2
      obtain ⟨ta, hta, hbs2⟩ := bindOkElim hbs2
      simp only [Except.pure, Except.ok.injEq] at hbs2
      simp [← hbs2, hr1]
    · simp only [Except.pure, Except.ok.injEq] at hbs2
      simp [← hbs2, hr1]
  have hr3 : bs3.repeatBaseStationNetworkId = none := by
    split at hbs3
    · obtain ⟨an, han, hbs3⟩ := bindOkElim hbs3
      obtain ⟨u, hu, hbs3⟩ := bindOkElim hbs3
      simp only [Except.pure, Except.ok.injEq] at hbs3
      simp [← hbs3, hr2]
    · simp only [Except.pure, Except.ok.injEq] at hbs3
      simp [← hbs3, hr2]
  split at h
  · obtain ⟨tech, htech, h⟩ := bindOkElim h
    obtain ⟨tl, htl, h⟩ := bindOkElim h
    obtain ⟨bsB, hbsB, h⟩ := bindOkElim h
    obtain ⟨bsC, hbsC, h⟩ := bindOkElim h
    have hrB : bsB.repeatBaseStationNetworkId = none := by
      split at hbsB
      · obtain ⟨ssb, hssb, hbsB⟩ := bindOkElim hbsB
        obtain ⟨ssbU, hssbU, hbsB⟩ := bindOkElim hbsB
        obtain ⟨csi, hcsi, hbsB⟩ := bindOkElim hbsB
        obtain ⟨csiU, hcsiU, hbsB⟩ := bindOkElim hbsB
        simp only [Except.pure, Except.ok.injEq] at hbsB
        simp [← hbsB, hr3]
      · simp only [Except.pure, Except.ok.injEq] at hbsB
        simp [← hbsB, hr3]
    have hrC : bsC.repeatBaseStationNetworkId = none := by
      split at hbsC
      · split at hbsC
        · obtain ⟨v1, hv1, hbsC⟩ := bindOkElim hbsC
          obtain ⟨v2, hv2, hbsC⟩ := bindOkElim hbsC
          obtain ⟨v3, hv3, hbsC⟩ := bindOkElim hbsC
          obtain ⟨v4, hv4, hbsC⟩ := bindOkElim hbsC
          obtain ⟨v5, hv5, hbsC⟩ := bindOkElim hbsC
          split at hbsC
          · obtain ⟨m, hm, hbsC⟩ := bindOkElim hbsC
            simp only [Except.pure, Except.ok.injEq] at hbsC
            simp [← hbsC, hrB]
          · simp only [Except.pure, Except.ok.injEq] at hbsC
            simp [← hbsC, hrB]
        · split at hbsC
          · exact absurd hbsC (by simp)
          · simp only [Except.pure, Except.ok.injEq] at hbsC
            simp [← hbsC, hrB]
      · simp only [Except.pure, Except.ok.injEq] at hbsC
        simp [← hbsC, hrB]
    split at h
    · exact absurd h (by simp)
    · simp only [Except.pure, Except.ok.injEq] at h
      simp [← h, hrC]
  · simp only [Except.pure, Except.ok.injEq] at h
    simp [← h, hr3]

/-- C6 witness: the amended no-repeater-output fact instantiated at the
concrete repeater-describing row of the counterexample. -/
theorem claim6_witness :
    onOk
      (fill_base_station
        [("transmitter id", "BS1"), ("transmitter name", "Alpha"),
         ("transmitter easting", "100.5"), ("transmitter northing", "200"),
         ("transmitter height", "30"), ("frequency", "2600"),
         ("techno", "5G"), ("repeat base station network id", "BS9")]
        "4G" "sess" [])
      (fun bs => bs.repeatBaseStationNetworkId) = some none := by
  cases hfb : fill_base_station
      [("transmitter id", "BS1"), ("transmitter name", "Alpha"),
       ("transmitter easting", "100.5"), ("transmitter northing", "200"),
       ("transmitter height", "30"), ("frequency", "2600"),
       ("techno", "5G"), ("repeat base station network id", "BS9")]
      "4G" "sess" [] with
  | error e =>
    have : (fill_base_station
        [("transmitter id", "BS1"), ("transmitter name", "Alpha"),
         ("transmitter easting", "100.5"), ("transmitter northing", "200"),
         ("transmitter height", "30"), ("frequency", "2600"),
         ("techno", "5G"), ("repeat base station network id", "BS9")]
        "4G" "sess" []).isOk = true := by decide
    rw [hfb] at this
    simp [Except.isOk, Except.toBool] at this
  | ok bs =>
    have := claim6_amended _ "4G" "sess" [] bs hfb
    simp [onOk, this]

/-- A successful default-free `get_from_dict` is exactly a successful row
lookup. -/
theorem get_from_dict_none_ok {row : Row} {k v : String}
    (h : get_from_dict row k none = Except.ok v) : row.lookup k = some v := by
  unfold get_from_dict at h
  cases hl : row.lookup k with
  | some w =>
    rw [hl] at h
    simp only [Except.ok.injEq] at h
    exact congrArg some h
  | none =>
    rw [hl] at h
    simp at h

/-- C7: the all-or-none rule on the five advanced SINR fields under the
4G computation type.  (1) A row where some but not all of the five fields
are present non-empty is never accepted: `fill_base_station` terminates
the run fatally.  (2) A row with all five present non-empty that is
accepted carries all five values on the returned base station.  (3) A row
with none of them set that is accepted carries none of them. -/
theorem claim7_theorem :
    (∀ (network : Row) (session_uuid : String) (antenna_dict : List (String × String)),
      (∃ f ∈ mandatoryAdvancedSinrFields, presentNonempty network f = true) →
      (∃ f ∈ mandatoryAdvancedSinrFields, presentNonempty network f = false) →
      ∀ bs, fill_base_station network "4G" session_uuid antenna_dict ≠ Except.ok bs) ∧
    (∀ (network : Row) (session_uuid : String) (antenna_dict : List (String × String))
        (bs : BaseStation),
      (∀ f ∈ mandatoryAdvancedSinrFields, presentNonempty network f = true) →
      fill_base_station network "4G" session_uuid antenna_dict = Except.ok bs →
      bs.epreOffsetSSVSRS = network.lookup "epre offset ss vs rs" ∧
      bs.epreOffsetPBCHVSRS = network.lookup "epre offset pbch vs rs" ∧
      bs.epreOffsetPDCCHVSRS = network.lookup "epre offset pdcch vs rs" ∧
      bs.epreOffsetPDSCHVSRS = network.lookup "epre offset pdsch vs rs" ∧
      bs.nbAntennaPorts = network.lookup "number antenna ports") ∧
    (∀ (network : Row) (session_uuid : String) (antenna_dict : List (String × String))
        (bs : BaseStation),
      (∀ f ∈ mandatoryAdvancedSinrFields, presentNonempty network f = false) →
      fill_base_station network "4G" session_uuid antenna_dict = Except.ok bs →
      bs.epreOffsetSSVSRS = none ∧ bs.epreOffsetPBCHVSRS = none ∧
      bs.epreOffsetPDCCHVSRS = none ∧ bs.epreOffsetPDSCHVSRS = none ∧
      bs.nbAntennaPorts = none) := by
  refine ⟨?_, ?_, ?_⟩
  · intro network session_uuid antenna_dict hsome hnone bs h
    have hall : (mandatoryAdvancedSinrFields.map fun f => presentNonempty network f).all
        (fun b => b) = false := by
      cases hb : (mandatoryAdvancedSinrFields.map fun f => presentNonempty network f).all
          (fun b => b) with
      | false => rfl
      | true =>
        exfalso
        obtain ⟨f, hf, hff⟩ := hnone
        rw [List.all_eq_true] at hb
        have hcf := hb (presentNonempty network f) (List.mem_map_of_mem _ hf)
        rw [hff] at hcf
        exact Bool.false_ne_true hcf
    have hany : (mandatoryAdvancedSinrFields.map fun f => presentNonempty network f).any
        (fun b => b) = true := by
      obtain ⟨f, hf, hft⟩ := hsome
      rw [List.any_eq_true]
      exact ⟨presentNonempty network f, List.mem_map_of_mem _ hf, hft⟩
    simp only [fill_base_station, Bind.bind, Pure.pure] at h
    obtain ⟨x, hx, h⟩ := bindOkElim h
    obtain ⟨y, hy, h⟩ := bindOkElim h
    obtain ⟨z, hz, h⟩ := bindOkElim h
    obtain ⟨az, haz, h⟩ := bindOkElim h
    obtain ⟨dt, hdt, h⟩ := bindOkElim h
    obtain ⟨cf, hcf, h⟩ := bindOkElim h
    obtain ⟨desc, hdesc, h⟩ := bindOkElim h
    obtain ⟨nm, hnm, h⟩ := bindOkElim h
    obtain ⟨nid, hnid, h⟩ := bindOkElim h
    obtain ⟨tp, htp, h⟩ := bindOkElim h
    obtain ⟨bs1, hbs1, h⟩ := bindOkElim h
    obtain ⟨bs2, hbs2, h⟩ := bindOkElim h
    obtain ⟨bs3, hbs3, h⟩ := bindOkElim h
    obtain ⟨tech, htech, h⟩ := bindOkElim h
    obtain ⟨tl, htl, h⟩ := bindOkElim h
    obtain ⟨bsB, hbsB, h⟩ := bindOkElim h
    obtain ⟨bsC, hbsC, h⟩ := bindOkElim h
    rw [hall, hany] at hbsC
    simp at hbsC
  · intro network session_uuid antenna_dict bs hcond h
    have hall2 : (mandatoryAdvancedSinrFields.map fun f => presentNonempty network f).all
        (fun b => b) = true := by
      rw [List.all_eq_true]
      intro b hb
      rw [List.mem_map] at hb
      obtain ⟨f, hf, rfl⟩ := hb
      exact hcond f hf
    simp only [fill_base_station, Bind.bind, Pure.pure] at h
    obtain ⟨x, hx, h⟩ := bindOkElim h
    obtain ⟨y, hy, h⟩ := bindOkElim h
    obtain ⟨z, hz, h⟩ := bindOkElim h
    obtain ⟨az, haz, h⟩ := bindOkElim h
    obtain ⟨dt, hdt, h⟩ := bindOkElim h
    obtain ⟨cf, hcf, h⟩ := bindOkElim h
    obtain ⟨desc, hdesc, h⟩ := bindOkElim h
    obtain ⟨nm, hnm, h⟩ := bindOkElim h
    obtain ⟨nid, hnid, h⟩ := bindOkElim h
    obtain ⟨tp, htp, h⟩ := bindOkElim h
    obtain ⟨bs1, hbs1, h⟩ := bindOkElim h
    obtain ⟨bs2, hbs2, h⟩ := bindOkElim h
    obtain ⟨bs3, hbs3, h⟩ := bindOkElim h
    obtain ⟨tech, htech, h⟩ := bindOkElim h
    obtain ⟨tl, htl, h⟩ := bindOkElim h
    obtain ⟨bsB, hbsB, h⟩ := bindOkElim h
    obtain ⟨bsC, hbsC, h⟩ := bindOkElim h
    rw [hall2] at hbsC
    simp at hbsC
    obtain ⟨v1, hv1, hbsC⟩ := bindOkElim hbsC
    obtain ⟨v2, hv2, hbsC⟩ := bindOkElim hbsC
    obtain ⟨v3, hv3, hbsC⟩ := bindOkElim hbsC
    obtain ⟨v4, hv4, hbsC⟩ := bindOkElim hbsC
    obtain ⟨v5, hv5, hbsC⟩ := bindOkElim hbsC
    have hl1 := get_from_dict_none_ok hv1
    have hl2 := get_from_dict_none_ok hv2
    have hl3 := get_from_dict_none_ok hv3
    have hl4 := get_from_dict_none_ok hv4
    have hl5 := get_from_dict_none_ok hv5
    split at h
    · exact absurd h (by simp)
    · simp only [Except.pure, Except.ok.injEq] at h
      split at hbsC
      · obtain ⟨m, hm, hbsC⟩ := bindOkElim hbsC
        simp only [Except.pure, Except.ok.injEq] at hbsC
        simp [← h, ← hbsC, hl1, hl2, hl3, hl4, hl5]
      · simp only [Except.pure, Except.ok.injEq] at hbsC
        simp [← h, ← hbsC, hl1, hl2, hl3, hl4, hl5]
  · intro network session_uuid antenna_dict bs hcond h
    have hall3 : (mandatoryAdvancedSinrFields.map fun f => presentNonempty network f).all
        (fun b => b) = false := by
      cases hb : (mandatoryAdvancedSinrFields.map fun f => presentNonempty network f).all
          (fun b => b) with
      | false => rfl
      | true =>
        exfalso
        rw [List.all_eq_true] at hb
        have hcf := hb (presentNonempty network "epre offset ss vs rs")
          (List.mem_map_of_mem _ (by simp [mandatoryAdvancedSinrFields]))
        rw [hcond "epre offset ss vs rs" (by simp [mandatoryAdvancedSinrFields])] at hcf
        exact Bool.false_ne_true hcf
    have hany3 : (mandatoryAdvancedSinrFields.map fun f => presentNonempty network f).any
        (fun b => b) = false := by
      cases hb : (mandatoryAdvancedSinrFields.map fun f => presentNonempty network f).any
          (fun b => b) with
      | false => rfl
      | true =>
        exfalso
        rw [List.any_eq_true] at hb
        obtain ⟨b, hbm, hbt⟩ := hb
        rw [List.mem_map] at hbm
        obtain ⟨f, hf, rfl⟩ := hbm
        rw [hcond f hf] at hbt
        exact Bool.false_ne_true hbt
    simp only [fill_base_station, Bind.bind, Pure.pure] at h
    obtain ⟨x, hx, h⟩ := bindOkElim h
    obtain ⟨y, hy, h⟩ := bindOkElim h
    obtain ⟨z, hz, h⟩ := bindOkElim h
    obtain ⟨az, haz, h⟩ := bindOkElim h
    obtain ⟨dt, hdt, h⟩ := bindOkElim h
    obtain ⟨cf, hcf, h⟩ := bindOkElim h
    obtain ⟨desc, hdesc, h⟩ := bindOkElim h
    obtain ⟨nm, hnm, h⟩ := bindOkElim h
    obtain ⟨nid, hnid, h⟩ := bindOkElim h
    obtain ⟨tp, htp, h⟩ := bindOkElim h
    obtain ⟨bs1, hbs1, h⟩ := bindOkElim h
    obtain ⟨bs2, hbs2, h⟩ := bindOkElim h
    obtain ⟨bs3, hbs3, h⟩ := bindOkElim h
    have e1 : bs1.epreOffsetSSVSRS = none ∧ bs1.epreOffsetPBCHVSRS = none ∧
        bs1.epreOffsetPDCCHVSRS = none ∧ bs1.epreOffsetPDSCHVSRS = none ∧
        bs1.nbAntennaPorts = none := by
      split at hbs1
      · obtain ⟨v, hv, hbs1⟩ := bindOkElim hbs1
        simp only [Except.pure, Except.ok.injEq] at hbs1
        simp [← hbs1]
      · simp only [Except.pure, Except.ok.injEq] at hbs1
        simp [← hbs1]
    have e2 : bs2.epreOffsetSSVSRS = none ∧ bs2.epreOffsetPBCHVSRS = none ∧
        bs2.epreOffsetPDCCHVSRS = none ∧ bs2.epreOffsetPDSCHVSRS = none ∧
        bs2.nbAntennaPorts = none := by
      split at hbs2
      · obtain ⟨th, hth, hbs2⟩ := bindOkElim hbs2
        obtain ⟨ta, hta, hbs2⟩ := bindOkElim hbs2
        simp only [Except.pure, Except.ok.injEq] at hbs2
        simp [← hbs2, e1.1, e1.2.1, e1.2.2.1, e1.2.2.2.1, e1.2.2.2.2]
      · simp only [Except.pure, Except.ok.injEq] at hbs2
        simp [← hbs2, e1.1, e1.2.1, e1.2.2.1, e1.2.2.2.1, e1.2.2.2.2]
    have e3 : bs3.epreOffsetSSVSRS = none ∧ bs3.epreOffsetPBCHVSRS = none ∧
        bs3.epreOffsetPDCCHVSRS = none ∧ bs3.epreOffsetPDSCHVSRS = none ∧
        bs3.nbAntennaPorts = none := by
      split at hbs3
      · obtain ⟨an, han, hbs3⟩ := bindOkElim hbs3
        obtain ⟨u, hu, hbs3⟩ := bindOkElim hbs3
        simp only [Except.pure, Except.ok.injEq] at hbs3
        simp [← hbs3, e2.1, e2.2.1, e2.2.2.1, e2.2.2.2.1, e2.2.2.2.2]
      · simp only [Except.pure, Except.ok.injEq] at hbs3
        simp [← hbs3, e2.1, e2.2.1, e2.2.2.1, e2.2.2.2.1, e2.2.2.2.2]
    obtain ⟨tech, htech, h⟩ := bindOkElim h
    obtain ⟨tl, htl, h⟩ := bindOkElim h
    obtain ⟨bsB, hbsB, h⟩ := bindOkElim h
    obtain ⟨bsC, hbsC, h⟩ := bindOkElim h
    have eB : bsB.epreOffsetSSVSRS = none ∧ bsB.epreOffsetPBCHVSRS = none ∧
        bsB.epreOffsetPDCCHVSRS = none ∧ bsB.epreOffsetPDSCHVSRS = none ∧
        bsB.nbAntennaPorts = none := by
      split at hbsB
      · next h5 => simp at h5
      · simp only [Except.pure, Except.ok.injEq] at hbsB
        simp [← hbsB, e3.1, e3.2.1, e3.2.2.1, e3.2.2.2.1, e3.2.2.2.2]
    have eC : bsC.epreOffsetSSVSRS = none ∧ bsC.epreOffsetPBCHVSRS = none ∧
        bsC.epreOffsetPDCCHVSRS = none ∧ bsC.epreOffsetPDSCHVSRS = none ∧
        bsC.nbAntennaPorts = none := by
      rw [hall3, hany3] at hbsC
      simp at hbsC
      simp only [Except.pure, Except.ok.injEq] at hbsC
      simp [← hbsC, eB.1, eB.2.1, eB.2.2.1, eB.2.2.2.1, eB.2.2.2.2]
    split at h
    · exact absurd h (by simp)
    · simp only [Except.pure, Except.ok.injEq] at h
      simp [← h, eC.1, eC.2.1, eC.2.2.1, eC.2.2.2.1, eC.2.2.2.2]

/-- C7 witness: under the 4G computation type, a row with only one of the
five advanced SINR fields is rejected, a row with all five carries them
all on the result, and a row with none carries none. -/
theorem claim7_witness :
    (fill_base_station
      [("transmitter id", "BS1"), ("transmitter name", "Alpha"),
       ("transmitter easting", "100"), ("transmitter northing", "200"),
       ("transmitter height", "30"), ("frequency", "2600"), ("techno", "4G"),
       ("epre offset ss vs rs", "1")]
      "4G" "sess" []).isOk = false ∧
    onOk (fill_base_station
      [("transmitter id", "BS1"), ("transmitter name", "Alpha"),
       ("transmitter easting", "100"), ("transmitter northing", "200"),
       ("transmitter height", "30"), ("frequency", "2600"), ("techno", "4G"),
       ("epre offset ss vs rs", "1"), ("epre offset pbch vs rs", "2"),
       ("epre offset pdcch vs rs", "3"), ("epre offset pdsch vs rs", "4"),
       ("number antenna ports", "2")]
      "4G" "sess" [])
      (fun bs => (bs.epreOffsetSSVSRS, bs.epreOffsetPBCHVSRS, bs.epreOffsetPDCCHVSRS,
        bs.epreOffsetPDSCHVSRS, bs.nbAntennaPorts)) =
      some (some "1", some "2", some "3", some "4", some "2") ∧
    onOk (fill_base_station
      [("transmitter id", "BS1"), ("transmitter name", "Alpha"),
       ("transmitter easting", "100"), ("transmitter northing", "200"),
       ("transmitter height", "30"), ("frequency", "2600"), ("techno", "4G")]
      "4G" "sess" [])
      (fun bs => (bs.epreOffsetSSVSRS, bs.epreOffsetPBCHVSRS, bs.epreOffsetPDCCHVSRS,
        bs.epreOffsetPDSCHVSRS, bs.nbAntennaPorts)) =
      some (none, none, none, none, none) := by
  refine ⟨?_, ?_, ?_⟩
  · cases hfb : fill_base_station
        [("transmitter id", "BS1"), ("transmitter name", "Alpha"),
         ("transmitter easting", "100"), ("transmitter northing", "200"),
         ("transmitter height", "30"), ("frequency", "2600"), ("techno", "4G"),
         ("epre offset ss vs rs", "1")]
        "4G" "sess" [] with
    | error e => rfl
    | ok bs =>
      exact absurd hfb (claim7_theorem.1 _ "sess" []
        ⟨"epre offset ss vs rs", by decide, by decide⟩
        ⟨"number antenna ports", by decide, by decide⟩ bs)
  · cases hfb : fill_base_station
        [("transmitter id", "BS1"), ("transmitter name", "Alpha"),
         ("transmitter easting", "100"), ("transmitter northing", "200"),
         ("transmitter height", "30"), ("frequency", "2600"), ("techno", "4G"),
         ("epre offset ss vs rs", "1"), ("epre offset pbch vs rs", "2"),
         ("epre offset pdcch vs rs", "3"), ("epre offset pdsch vs rs", "4"),
         ("number antenna ports", "2")]
        "4G" "sess" [] with
    | error e =>
      have hok : (fill_base_station
          [("transmitter id", "BS1"), ("transmitter name", "Alpha"),
           ("transmitter easting", "100"), ("transmitter northing", "200"),
           ("transmitter height", "30"), ("frequency", "2600"), ("techno", "4G"),
           ("epre offset ss vs rs", "1"), ("epre offset pbch vs rs", "2"),
           ("epre offset pdcch vs rs", "3"), ("epre offset pdsch vs rs", "4"),
           ("number antenna ports", "2")]
          "4G" "sess" []).isOk = true := by decide
      rw [hfb] at hok
      simp [Except.isOk, Except.toBool] at hok
    | ok bs =>
      have h5 := claim7_theorem.2.1 _ "sess" [] bs (by decide) hfb
      simp only [onOk, Option.some.injEq]
      rw [h5.1, h5.2.1, h5.2.2.1, h5.2.2.2.1, h5.2.2.2.2]
      decide
  · cases hfb : fill_base_station
        [("transmitter id", "BS1"), ("transmitter name", "Alpha"),
         ("transmitter easting", "100"), ("transmitter northing", "200"),
         ("transmitter height", "30"), ("frequency", "2600"), ("techno", "4G")]
        "4G" "sess" [] with
    | error e =>
      have hok : (fill_base_station
          [("transmitter id", "BS1"), ("transmitter name", "Alpha"),
           ("transmitter easting", "100"), ("transmitter northing", "200"),
           ("transmitter height", "30"), ("frequency", "2600"), ("techno", "4G")]
          "4G" "sess" []).isOk = true := by decide
      rw [hfb] at hok
      simp [Except.isOk, Except.toBool] at hok
    | ok bs =>
      have h5 := claim7_theorem.2.2 _ "sess" [] bs (by decide) hfb
      simp only [onOk, Option.some.injEq]
      rw [h5.1, h5.2.1, h5.2.2.1, h5.2.2.2.1, h5.2.2.2.2]

/-! ## Prediction settings, user equipment and the AREA bounding box
(claims C8 and C1)

The JSON job specification fields read by the assembler, as a typed
structure (the input file is schema-checked by its consumers). -/

/-- The `predictionSettings` object of the JSON input. -/
structure PredictionSettings where
  type_ : Option String := none
  receptionHeights : List ℚ := []
  predictionResultType : List String := []
  shiftGridCenter : Option Bool := none
  receptionHeightReference : Option String := none
  isotropic : Option Bool := none
  force : Option Bool := none
  priority : Option Int := none

/-- The parts of the JSON input consumed by the request assembler:
`predictionSettings` plus the optional `network.computationType`. -/
structure Settings where
  predictionSettings : PredictionSettings
  computationType : Option String := none

/-- Embeds `get_computation_type` (source lines 185-195). -/
def get_computation_type (data_dict : Settings) : String :=
  data_dict.computationType.getD ""

/-- Embeds `get_prediction_type` (source lines 198-207): AREA unless a
type key is present. -/
def get_prediction_type (prediction_settings : PredictionSettings) : String :=
  (prediction_settings.type_).getD "AREA"

/-- Embeds `handle_zmeaning` (source lines 1450-1469). -/
def handle_zmeaning (prediction_settings : PredictionSettings) : Except Err String :=
  match prediction_settings.receptionHeightReference with
  | none => .ok "ZMEANING_GROUND"
  | some r =>
    if r = "CLUTTER" then .ok "ZMEANING_CLUTTER"
    else if r = "ALTITUDE" then .ok "ZMEANING_ALTITUDE"
    else if r = "GROUND" then .ok "ZMEANING_GROUND"
    else .error "unknown receptionHeightReference, must be GROUND or CLUTTER"

/-- Heights of a user equipment: POINT mode stores the raw receiver
height cell, AREA mode copies the numeric reception heights of the
prediction settings. -/
inductive UEHeights where
  | ofStrings (hs : List String)
  | ofRats (hs : List ℚ)

/-- Coordinates of a user equipment: a single receiver point, or an area
bounding box with a resolution.  Reals model the floating-point
arithmetic of the source exactly. -/
inductive UECoordinates where
  | point (x y : ℝ) (epsgCode : Option Nat)
  | area (xmin xmax ymin ymax resolution : ℝ) (epsgCode : Option Nat)

/-- A user equipment as assembled by `fill_user_equipment`. -/
structure UserEquipment where
  sessionUuid : String
  description : String
  zmeaning : String
  type_ : String
  name : String
  heights : UEHeights
  coordinates : UECoordinates
  antenna : Option String := none
  antennaUuid : Option String := none
  azimuth : Option String := none
  downtilt : Option String := none

/-- Bounding-box accessors (0 on a POINT equipment). -/
def areaXmin (ue : UserEquipment) : ℝ :=
  match ue.coordinates with
  | .area v _ _ _ _ _ => v
  | _ => 0

/-- Bounding-box xmax accessor. -/
def areaXmax (ue : UserEquipment) : ℝ :=
  match ue.coordinates with
  | .area _ v _ _ _ _ => v
  | _ => 0

/-- Bounding-box ymin accessor. -/
def areaYmin (ue : UserEquipment) : ℝ :=
  match ue.coordinates with
  | .area _ _ v _ _ _ => v
  | _ => 0

/-- Bounding-box ymax accessor. -/
def areaYmax (ue : UserEquipment) : ℝ :=
  match ue.coordinates with
  | .area _ _ _ v _ _ => v
  | _ => 0

/-- The flat-earth conversion factor of the source (line 1424-1425):
one meter expressed in degrees of latitude,
`(1 / ((2·π/360) · 6378.137)) / 1000`. -/
noncomputable def meterInDegree : ℝ := (1 / ((2 * Real.pi / 360) * 6378.137)) / 1000

/-- Embeds `fill_user_equipment` (source lines 1333-1447): POINT mode
builds a single receiver from the receiver columns; AREA mode builds a
bounding box of side twice the calculation radius around the transmitter
(optionally snapped to the resolution grid), using the flat-earth degree
conversion for geographic coordinates. -/
noncomputable def fill_user_equipment (network : Row) (session_uuid : String)
    (data_dict : Settings) (antenna_dict : List (String × String)) :
    Except Err UserEquipment := do
  let desc ← get_from_dict network "comments" (some "")
  let zm ← handle_zmeaning data_dict.predictionSettings
  let tll := (network.lookup "transmitter longitude").isSome &&
             (network.lookup "transmitter latitude").isSome
  if data_dict.predictionSettings.type_ = some "POINT" then
    let rll := (network.lookup "receiver longitude").isSome &&
               (network.lookup "receiver latitude").isSome
    let pointUeFields : List String :=
      ["receiver name", "receiver height",
       if rll then "receiver longitude" else "receiver easting",
       if rll then "receiver latitude" else "receiver northing"]
    let found := pointUeFields.map (fun f => presentNonempty network f)
    if !(found.all fun b => b) then
      Except.error
        "Error user equipment: For POINT user equipment, all values must be configured"
    else
      (get_from_dict network "receiver name" none).bind fun rname =>
        (get_from_dict network "receiver height" none).bind fun rheight =>
          (if rll then get_float_from_dict network "receiver longitude" none
           else get_float_from_dict network "receiver easting" none).bind fun rx =>
            (if rll then get_float_from_dict network "receiver latitude" none
             else get_float_from_dict network "receiver northing" none).bind fun ry =>
              let ue : UserEquipment :=
                { sessionUuid := session_uuid, description := desc, zmeaning := zm,
                  type_ := "POINT", name := rname,
                  heights := .ofStrings [rheight],
                  coordinates := .point (rx : ℝ) (ry : ℝ)
                    (if tll then some 4326 else none) }
              if presentNonempty network "receiver antenna" then
                (get_from_dict network "receiver antenna" none).bind fun ant =>
                  (get_resource_uuid_from_cache "Antenna" antenna_dict ant).bind fun u =>
                    (get_from_dict network "receiver azimuth" (some "0")).bind fun raz =>
                      (get_from_dict network "receiver downtilt" (some "0")).bind fun rdt =>
                        pure { ue with antenna := some ant, antennaUuid := some u,
                                       azimuth := some raz, downtilt := some rdt }
              else pure ue
  else
    let areaUeFields : List String := ["calculation resolution", "calculation radius"]
    let found := areaUeFields.map (fun f => presentNonempty network f)
    if !(found.all fun b => b) then
      Except.error
        "Error user equipment: For AREA user equipment, all values must be configured"
    else
      (get_from_dict network "transmitter name" none).bind fun nm =>
        (get_float_from_dict network "calculation resolution" none).bind fun resq =>
          (if tll then get_float_from_dict network "transmitter longitude" none
           else get_float_from_dict network "transmitter easting" none).bind fun txq =>
            (if tll then get_float_from_dict network "transmitter latitude" none
             else get_float_from_dict network "transmitter northing" none).bind fun tyq =>
              (get_float_from_dict network "calculation radius" none).bind fun radq =>
                let resolution : ℝ := (resq : ℝ)
                let txg : ℝ :=
                  if data_dict.predictionSettings.shiftGridCenter = some true then
                    resolution *
                      (Int.floor (((txq : ℝ) + resolution / 2) / resolution) : ℝ)
                  else (txq : ℝ)
                let tyg : ℝ :=
                  if data_dict.predictionSettings.shiftGridCenter = some true then
                    resolution *
                      (Int.floor (((tyq : ℝ) + resolution / 2) / resolution) : ℝ)
                  else (tyq : ℝ)
                let calculationRadius : ℝ := (radq : ℝ)
                let coords : UECoordinates :=
                  if tll then
                    let m : ℝ := meterInDegree
                    let latMin := tyg - calculationRadius * m
                    let latMax := tyg + calculationRadius * m
                    let longMin := txg - (calculationRadius * m) /
                      Real.cos (latMin * (Real.pi / 180))
                    let longMax := txg + (calculationRadius * m) /
                      Real.cos (latMax * (Real.pi / 180))
                    .area longMin longMax latMin latMax resolution (some 4326)
                  else
                    .area (txg - calculationRadius) (txg + calculationRadius)
                      (tyg - calculationRadius) (tyg + calculationRadius)
                      resolution none
                pure { sessionUuid := session_uuid, description := desc, zmeaning := zm,
                       type_ := "AREA", name := nm,
                       heights := .ofRats data_dict.predictionSettings.receptionHeights,
                       coordinates := coords }

/-! ### Claim C8: AREA bounding box -/

/-- A CSV network row giving the transmitter in planar (easting/northing)
coordinates, with symbolic cell contents. -/
def planarAreaRow (sx sy sr sres : String) : Row :=
  [("transmitter name", "TX"), ("transmitter easting", sx),
   ("transmitter northing", sy), ("calculation radius", sr),
   ("calculation resolution", sres)]

/-- A CSV network row giving the transmitter in geographic
(longitude/latitude) coordinates, with symbolic cell contents. -/
def geoAreaRow (sx sy sr sres : String) : Row :=
  [("transmitter name", "TX"), ("transmitter longitude", sx),
   ("transmitter latitude", sy), ("calculation radius", sr),
   ("calculation resolution", sres)]

/-- AREA-mode prediction settings (no `type` key, so the prediction type
defaults to AREA), with the grid-shift flag as a parameter. -/
def areaSettings (shift : Bool) : Settings :=
  { predictionSettings :=
      { receptionHeights := [(3 : ℚ) / 2], shiftGridCenter := some shift } }

/-- Projects the user equipment out of a successful build (an arbitrary
placeholder on the error side, used only to state closed facts). -/
def ueOf : Except Err UserEquipment → UserEquipment
  | .ok ue => ue
  | .error _ =>
    { sessionUuid := "", description := "", zmeaning := "", type_ := "",
      name := "", heights := .ofStrings [], coordinates := .point 0 0 none }

/-- A cell that parses as a decimal is in particular non-empty. -/
theorem parseDecimal_some_ne_empty {s : String} {q : ℚ}
    (h : parseDecimal s = some q) : s ≠ "" := by
  intro hs
  subst hs
  exact Option.noConfusion (h : (none : Option ℚ) = some q)

/-- The meter-to-degree factor is positive. -/
theorem meterInDegree_pos : 0 < meterInDegree := by
  have h := Real.pi_pos
  unfold meterInDegree
  positivity

/-- `π` cancels in the latitude offset: a radius of `r` meters scaled by
`meterInDegree` and converted back to radians is exactly `r / 6378137`
radians. -/
theorem radius_arg (r : ℝ) : r * meterInDegree * (Real.pi / 180) = r / 6378137 := by
  have hpi := Real.pi_ne_zero
  unfold meterInDegree
  rw [show (6378.137 : ℝ) = 6378137 / 1000 by norm_num]
  field_simp
  ring

/-- When both corner latitudes have positive cosine, the geographic
longitude bounds of the source are properly ordered. -/
theorem geo_box_mono (tx ty r : ℝ) (hr : 0 < r)
    (h1 : 0 < Real.cos ((ty - r * meterInDegree) * (Real.pi / 180)))
    (h2 : 0 < Real.cos ((ty + r * meterInDegree) * (Real.pi / 180))) :
    tx - r * meterInDegree / Real.cos ((ty - r * meterInDegree) * (Real.pi / 180)) <
      tx + r * meterInDegree / Real.cos ((ty + r * meterInDegree) * (Real.pi / 180)) := by
  have hm := meterInDegree_pos
  have ha := div_pos (mul_pos hr hm) h1
  have hb := div_pos (mul_pos hr hm) h2
  linarith

/-- The latitude span `13400000 / 6378137` radians (a radius of 13 400 km)
lies strictly between `π/2` and `3π/2`, so its cosine is negative. -/
theorem cos_bigRadius_neg : Real.cos ((13400000 : ℝ) / 6378137) < 0 := by
  have h1 : Real.pi / 2 < (13400000 : ℝ) / 6378137 := by
    have hlt := Real.pi_lt_315
    have : (1.575 : ℝ) < 13400000 / 6378137 := by norm_num
    linarith
  have h2 : (13400000 : ℝ) / 6378137 < Real.pi + Real.pi / 2 := by
    have hgt := Real.pi_gt_three
    have : (13400000 : ℝ) / 6378137 < 4.5 := by norm_num
    linarith
  exact Real.cos_neg_of_pi_div_two_lt_of_lt h1 h2

theorem parseDecimal_0 : parseDecimal "0" = some 0 := by
  simp +decide [parseDecimal, parseDigitsAux, List.splitOn, List.splitOnP,
    List.splitOnP.go]

theorem parseDecimal_10 : parseDecimal "10" = some 10 := by
  simp +decide [parseDecimal, parseDigitsAux, List.splitOn, List.splitOnP,
    List.splitOnP.go]

theorem parseDecimal_20 : parseDecimal "20" = some 20 := by
  simp +decide [parseDecimal, parseDigitsAux, List.splitOn, List.splitOnP,
    List.splitOnP.go]

theorem parseDecimal_50 : parseDecimal "50" = some 50 := by
  simp +decide [parseDecimal, parseDigitsAux, List.splitOn, List.splitOnP,
    List.splitOnP.go]

theorem parseDecimal_500 : parseDecimal "500" = some 500 := by
  simp +decide [parseDecimal, parseDigitsAux, List.splitOn, List.splitOnP,
    List.splitOnP.go]

theorem parseDecimal_13400000 : parseDecimal "13400000" = some 13400000 := by
  simp +decide [parseDecimal, parseDigitsAux, List.splitOn, List.splitOnP,
    List.splitOnP.go]

set_option maxHeartbeats 1000000 in
/-- Symbolic evaluation of `fill_user_equipment` on a planar AREA row:
the build succeeds and produces the bounding box of the source, with the
transmitter optionally snapped to the resolution grid. -/
theorem fill_user_equipment_planar_eq (sx sy sr sres : String) (qx qy qr qres : ℚ)
    (shift : Bool)
    (hx : parseDecimal sx = some qx) (hy : parseDecimal sy = some qy)
    (hr : parseDecimal sr = some qr) (hres : parseDecimal sres = some qres) :
    fill_user_equipment (planarAreaRow sx sy sr sres) "sess" (areaSettings shift) [] =
      Except.ok
        { sessionUuid := "sess", description := "", zmeaning := "ZMEANING_GROUND",
          type_ := "AREA", name := "TX",
          heights := UEHeights.ofRats [(3 : ℚ) / 2],
          coordinates := UECoordinates.area
            ((if shift = true then (qres : ℝ) * ((⌊((qx : ℝ) + (qres : ℝ) / 2) / (qres : ℝ)⌋ : ℤ) : ℝ) else (qx : ℝ)) - (qr : ℝ))
            ((if shift = true then (qres : ℝ) * ((⌊((qx : ℝ) + (qres : ℝ) / 2) / (qres : ℝ)⌋ : ℤ) : ℝ) else (qx : ℝ)) + (qr : ℝ))
            ((if shift = true then (qres : ℝ) * ((⌊((qy : ℝ) + (qres : ℝ) / 2) / (qres : ℝ)⌋ : ℤ) : ℝ) else (qy : ℝ)) - (qr : ℝ))
            ((if shift = true then (qres : ℝ) * ((⌊((qy : ℝ) + (qres : ℝ) / 2) / (qres : ℝ)⌋ : ℤ) : ℝ) else (qy : ℝ)) + (qr : ℝ))
            ((qres : ℝ)) none } := by
  have hsr := parseDecimal_some_ne_empty hr
  have hsres := parseDecimal_some_ne_empty hres
  simp [fill_user_equipment, planarAreaRow, areaSettings, get_from_dict,
    get_float_from_dict, presentNonempty, handle_zmeaning, List.lookup,
    Bind.bind, Except.bind, Pure.pure, Except.pure, hx, hy, hr, hres, hsr, hsres]

set_option maxHeartbeats 1000000 in
/-- Symbolic evaluation of `fill_user_equipment` on a geographic AREA
row: the build succeeds and produces the flat-earth bounding box of the
source, the longitude offsets divided by the cosines of the corner
latitudes. -/
theorem fill_user_equipment_geo_eq (sx sy sr sres : String) (qx qy qr qres : ℚ)
    (shift : Bool)
    (hx : parseDecimal sx = some qx) (hy : parseDecimal sy = some qy)
    (hr : parseDecimal sr = some qr) (hres : parseDecimal sres = some qres) :
    fill_user_equipment (geoAreaRow sx sy sr sres) "sess" (areaSettings shift) [] =
      Except.ok
        { sessionUuid := "sess", description := "", zmeaning := "ZMEANING_GROUND",
          type_ := "AREA", name := "TX",
          heights := UEHeights.ofRats [(3 : ℚ) / 2],
          coordinates := UECoordinates.area
            ((if shift = true then (qres : ℝ) * ((⌊((qx : ℝ) + (qres : ℝ) / 2) / (qres : ℝ)⌋ : ℤ) : ℝ) else (qx : ℝ)) -
              (qr : ℝ) * meterInDegree / Real.cos
                (((if shift = true then (qres : ℝ) * ((⌊((qy : ℝ) + (qres : ℝ) / 2) / (qres : ℝ)⌋ : ℤ) : ℝ) else (qy : ℝ)) -
                  (qr : ℝ) * meterInDegree) * (Real.pi / 180)))
            ((if shift = true then (qres : ℝ) * ((⌊((qx : ℝ) + (qres : ℝ) / 2) / (qres : ℝ)⌋ : ℤ) : ℝ) else (qx : ℝ)) +
              (qr : ℝ) * meterInDegree / Real.cos
                (((if shift = true then (qres : ℝ) * ((⌊((qy : ℝ) + (qres : ℝ) / 2) / (qres : ℝ)⌋ : ℤ) : ℝ) else (qy : ℝ)) +
                  (qr : ℝ) * meterInDegree) * (Real.pi / 180)))
            ((if shift = true then (qres : ℝ) * ((⌊((qy : ℝ) + (qres : ℝ) / 2) / (qres : ℝ)⌋ : ℤ) : ℝ) else (qy : ℝ)) -
              (qr : ℝ) * meterInDegree)
            ((if shift = true then (qres : ℝ) * ((⌊((qy : ℝ) + (qres : ℝ) / 2) / (qres : ℝ)⌋ : ℤ) : ℝ) else (qy : ℝ)) +
              (qr : ℝ) * meterInDegree)
            ((qres : ℝ)) (some 4326) } := by
  have hsr := parseDecimal_some_ne_empty hr
  have hsres := parseDecimal_some_ne_empty hres
  simp [fill_user_equipment, geoAreaRow, areaSettings, get_from_dict,
    get_float_from_dict, presentNonempty, handle_zmeaning, List.lookup,
    Bind.bind, Except.bind, Pure.pure, Except.pure, hx, hy, hr, hres, hsr, hsres]

/-- C8, counterexample: a geographic AREA row at the equator with a
13 400 km calculation radius is accepted by `fill_user_equipment`, but
the flat-earth division by `cos(lat)` flips the box: `xmax < xmin`,
refuting `xmin < xmax` for this positive radius. -/
theorem claim8_counterexample :
    (fill_user_equipment (geoAreaRow "0" "0" "13400000" "50") "sess"
        (areaSettings false) []).isOk = true ∧
    areaXmax (ueOf (fill_user_equipment (geoAreaRow "0" "0" "13400000" "50") "sess"
        (areaSettings false) [])) <
      areaXmin (ueOf (fill_user_equipment (geoAreaRow "0" "0" "13400000" "50") "sess"
        (areaSettings false) [])) := by
  have hgeo := fill_user_equipment_geo_eq "0" "0" "13400000" "50" 0 0 13400000 50 false
    parseDecimal_0 parseDecimal_0 parseDecimal_13400000 parseDecimal_50
  refine ⟨by rw [hgeo]; rfl, ?_⟩
  rw [hgeo]
  simp [ueOf, areaXmin, areaXmax]
  rw [radius_arg]
  have hD := cos_bigRadius_neg
  have hnum : (0 : ℝ) < 13400000 * meterInDegree :=
    mul_pos (by norm_num) meterInDegree_pos
  have := div_neg_of_pos_of_neg hnum hD
  linarith

/-- C8, amended: for a positive calculation radius, the planar AREA box
always satisfies xmin < xmax and ymin < ymax (default and grid-shifted
sub-modes), and rebuilding with identical inputs is deterministic; in
geographic mode ymin < ymax always holds, but xmin < xmax is only
guaranteed when both corner latitudes (in radians) have positive
cosine: for radii beyond about a quarter of the Earth circumference the
cosine turns negative and the longitude bounds flip (see the
counterexample). -/
theorem claim8_amended (sx sy sr sres : String) (qx qy qr qres : ℚ) (shift : Bool)
    (hx : parseDecimal sx = some qx) (hy : parseDecimal sy = some qy)
    (hr : parseDecimal sr = some qr) (hres : parseDecimal sres = some qres)
    (hrpos : 0 < qr) :
    (∀ ue, fill_user_equipment (planarAreaRow sx sy sr sres) "sess"
        (areaSettings shift) [] = Except.ok ue →
      ue.type_ = "AREA" ∧ areaXmin ue < areaXmax ue ∧ areaYmin ue < areaYmax ue) ∧
    (∀ ue, fill_user_equipment (geoAreaRow sx sy sr sres) "sess"
        (areaSettings shift) [] = Except.ok ue →
      ue.type_ = "AREA" ∧ areaYmin ue < areaYmax ue ∧
        (0 < Real.cos (areaYmin ue * (Real.pi / 180)) →
          0 < Real.cos (areaYmax ue * (Real.pi / 180)) →
          areaXmin ue < areaXmax ue)) ∧
    fill_user_equipment (geoAreaRow sx sy sr sres) "sess" (areaSettings shift) [] =
      fill_user_equipment (geoAreaRow sx sy sr sres) "sess" (areaSettings shift) [] := by
  have hq : (0 : ℝ) < (qr : ℝ) := by exact_mod_cast hrpos
  refine ⟨?_, ?_, rfl⟩
  · intro ue h
    rw [fill_user_equipment_planar_eq sx sy sr sres qx qy qr qres shift hx hy hr hres] at h
    simp only [Except.ok.injEq] at h
    subst h
    refine ⟨rfl, ?_, ?_⟩ <;>
      simp [areaXmin, areaXmax, areaYmin, areaYmax] <;> linarith
  · intro ue h
    rw [fill_user_equipment_geo_eq sx sy sr sres qx qy qr qres shift hx hy hr hres] at h
    simp only [Except.ok.injEq] at h
    subst h
    have hmr := mul_pos hq meterInDegree_pos
    refine ⟨rfl, ?_, ?_⟩
    · simp [areaYmin, areaYmax]
      linarith
    · simp [areaXmin, areaXmax, areaYmin, areaYmax]
      intro hc1 hc2
      exact geo_box_mono _ _ _ hq hc1 hc2

/-- C8, witness: the amended theorem applied to a concrete planar row
(easting 10, northing 20, radius 500 m, resolution 50 m): the build
succeeds and the box of the built equipment is correctly ordered. -/
theorem claim8_witness :
    (fill_user_equipment (planarAreaRow "10" "20" "500" "50") "sess"
        (areaSettings false) []).isOk = true ∧
    areaXmin (ueOf (fill_user_equipment (planarAreaRow "10" "20" "500" "50") "sess"
        (areaSettings false) [])) <
      areaXmax (ueOf (fill_user_equipment (planarAreaRow "10" "20" "500" "50") "sess"
        (areaSettings false) [])) := by
  have hpl := fill_user_equipment_planar_eq "10" "20" "500" "50" 10 20 500 50 false
    parseDecimal_10 parseDecimal_20 parseDecimal_500 parseDecimal_50
  refine ⟨by rw [hpl]; rfl, ?_⟩
  have h := (claim8_amended "10" "20" "500" "50" 10 20 500 50 false
    parseDecimal_10 parseDecimal_20 parseDecimal_500 parseDecimal_50
    (by decide)).1 _ hpl
  rw [hpl]
  simpa [ueOf] using h.2.1


/-! ### Claim C1: propagation scenario merging -/

/-- Embeds `is_same_base_station` (source lines 1475-1492): equality of
the nine compared attributes. -/
def is_same_base_station (b1 b2 : BaseStation) : Bool :=
  decide (b1.networkId = b2.networkId ∧ b1.name = b2.name ∧ b1.x = b2.x ∧
    b1.y = b2.y ∧ b1.z = b2.z ∧ b1.azimuth = b2.azimuth ∧
    b1.downtilt = b2.downtilt ∧ b1.carrierFrequency = b2.carrierFrequency ∧
    b1.transmitPower = b2.transmitPower)

/-- One propagation scenario of the request body. -/
structure PropagationScenario where
  baseStation : BaseStation
  userEquipments : List UserEquipment
  propagationModelUuid : String

/-- The assembled propagation request body. -/
structure PropagationRequest where
  propagationScenarios : List PropagationScenario
  resultTypes : List String
  heights : List ℚ
  zmeaning : String
  isotropic : Option Bool := none
  force : Option Bool := none
  priority : Option Int := none

/-- Embeds the scenario-merge loop of `create_propagation_request`
(source lines 1572-1591): scan the scenarios built so far for one whose
base station matches attribute-wise; on a match, a POINT equipment is
appended there, any other equipment aborts the run; with no match a
fresh scenario is appended at the end. -/
def addPropagation (bs : BaseStation) (ue : UserEquipment) (mu : String) :
    List PropagationScenario → Except Err (List PropagationScenario)
  | [] =>
    .ok [{ baseStation := bs, userEquipments := [ue], propagationModelUuid := mu }]
  | p :: rest =>
    if is_same_base_station p.baseStation bs then
      if ue.type_ = "POINT" then
        .ok ({ p with userEquipments := p.userEquipments ++ [ue] } :: rest)
      else .error "Cannot create point to multi points simulations"
    else (addPropagation bs ue mu rest).map (fun l => p :: l)

/-- Embeds the per-row body of `create_propagation_request` (source
lines 1561-1591): build the base station, the user equipment and the
model uuid for each row, then merge into the scenario list. -/
noncomputable def createPropagationLoop (settings : Settings) (session_uuid : String)
    (antenna_dict models : List (String × String)) :
    List Row → List PropagationScenario → Except Err (List PropagationScenario)
  | [], acc => .ok acc
  | network :: rest, acc =>
    (fill_base_station network (get_computation_type settings) session_uuid
        antenna_dict).bind fun bs =>
      (fill_user_equipment network session_uuid settings antenna_dict).bind fun ue =>
        (get_from_dict network "propagation model" none).bind fun mname =>
          (get_resource_uuid_from_cache "PropagationModel" models mname).bind fun mu =>
            (addPropagation bs ue mu acc).bind fun acc2 =>
              createPropagationLoop settings session_uuid antenna_dict models rest acc2

/-- Embeds `create_propagation_request` (source lines 1544-1607): POINT
simulations are rejected before any row is processed; otherwise the rows
are folded into scenarios and the request body assembled. -/
noncomputable def create_propagation_request (network_list : List Row)
    (settings : Settings) (session_uuid : String)
    (antenna_dict models : List (String × String)) :
    Except Err PropagationRequest :=
  if get_prediction_type settings.predictionSettings = "POINT" then
    Except.error "Cannot create POINT simulations"
  else
    (createPropagationLoop settings session_uuid antenna_dict models
        network_list []).bind fun plist =>
      (handle_zmeaning settings.predictionSettings).bind fun zm =>
        Except.ok
          { propagationScenarios := plist,
            resultTypes := settings.predictionSettings.predictionResultType,
            heights := settings.predictionSettings.receptionHeights,
            zmeaning := zm,
            isotropic := settings.predictionSettings.isotropic,
            force := settings.predictionSettings.force,
            priority := settings.predictionSettings.priority }

/-- Prediction settings whose explicit type is POINT. -/
def pointSettings : Settings :=
  { predictionSettings := { type_ := some "POINT" } }

/-- A CSV row carrying both the base-station columns and the planar AREA
equipment columns, as used for the C1 scenario-merging analysis. -/
def c1Row : Row :=
  [("transmitter name", "TX"), ("transmitter id", "BS1"),
   ("transmitter easting", "10"), ("transmitter northing", "20"),
   ("transmitter height", "30"), ("frequency", "2600"),
   ("calculation radius", "500"), ("calculation resolution", "50"),
   ("propagation model", "M1")]

/-- The base station that `fill_base_station` builds from `c1Row`. -/
def c1BS : BaseStation :=
  { x := 10, y := 20, z := 30, epsgCode := none, zmeaning := "ZMEANING_GROUND",
    azimuth := 0, downtilt := 0, carrierFrequency := 2600, description := "",
    sessionUuid := "sess", name := "TX", networkId := "BS1", transmitPower := 0 }

/-- The user equipment that `fill_user_equipment` builds from `c1Row`
under default AREA settings. -/
noncomputable def c1UE : UserEquipment :=
  { sessionUuid := "sess", description := "", zmeaning := "ZMEANING_GROUND",
    type_ := "AREA", name := "TX", heights := UEHeights.ofRats [(3 : ℚ) / 2],
    coordinates := UECoordinates.area ((10 : ℝ) - 500) ((10 : ℝ) + 500)
      ((20 : ℝ) - 500) ((20 : ℝ) + 500) (50 : ℝ) none }

theorem parseDecimal_30 : parseDecimal "30" = some 30 := by
  simp +decide [parseDecimal, parseDigitsAux, List.splitOn, List.splitOnP,
    List.splitOnP.go]

theorem parseDecimal_2600 : parseDecimal "2600" = some 2600 := by
  simp +decide [parseDecimal, parseDigitsAux, List.splitOn, List.splitOnP,
    List.splitOnP.go]

set_option maxHeartbeats 1000000 in
/-- Evaluation of `fill_base_station` on the C1 row. -/
theorem c1_fill_bs : fill_base_station c1Row "" "sess" [] = Except.ok c1BS := by
  simp [fill_base_station, c1Row, c1BS, get_from_dict, get_float_from_dict,
    presentNonempty, List.lookup, Bind.bind, Except.bind, Pure.pure, Except.pure,
    parseDecimal_10, parseDecimal_20, parseDecimal_30, parseDecimal_2600]

set_option maxHeartbeats 1000000 in
/-- Evaluation of `fill_user_equipment` on the C1 row. -/
theorem c1_fill_ue :
    fill_user_equipment c1Row "sess" (areaSettings false) [] = Except.ok c1UE := by
  simp [fill_user_equipment, c1Row, c1UE, areaSettings, get_from_dict,
    get_float_from_dict, presentNonempty, handle_zmeaning, List.lookup,
    Bind.bind, Except.bind, Pure.pure, Except.pure,
    parseDecimal_10, parseDecimal_20, parseDecimal_500, parseDecimal_50]


/-- The propagation-model cell of the C1 row. -/
theorem c1_model : get_from_dict c1Row "propagation model" none = Except.ok "M1" := by
  simp [c1Row, get_from_dict, List.lookup]

/-- C1, counterexample: the claim describes merging of two POINT
equipments into one scenario; in fact a POINT prediction type is
rejected before any row is processed, and under any other prediction
type two rows with attribute-wise identical base stations abort the run
instead of merging. -/
theorem claim1_counterexample :
    create_propagation_request [] pointSettings "sess" [] [] =
      Except.error "Cannot create POINT simulations" ∧
    create_propagation_request [c1Row, c1Row] (areaSettings false) "sess" []
        [("M1", "u1")] =
      Except.error "Cannot create point to multi points simulations" := by
  constructor
  · rfl
  · simp [create_propagation_request, createPropagationLoop, c1_fill_bs,
      c1_fill_ue, c1_model, get_resource_uuid_from_cache, List.lookup,
      addPropagation, is_same_base_station, c1BS, c1UE,
      Bind.bind, Except.bind, Pure.pure, Except.pure, Except.map,
      show get_prediction_type (areaSettings false).predictionSettings = "AREA"
        from by simp [areaSettings, get_prediction_type],
      show get_computation_type (areaSettings false) = ""
        from by simp [areaSettings, get_computation_type]]

/-- C1, amended: (1) a POINT prediction type makes
`create_propagation_request` abort before any row is processed; (2) in
the merge loop, an equipment that is not of POINT type aborts the run as
soon as any already-built scenario has an attribute-wise identical base
station — nothing is ever merged; (3) whenever the prediction type is
not POINT, every successfully built user equipment is of AREA type, so
the merging branch of the loop (reachable only for POINT equipment) is
dead code. -/
theorem claim1_amended :
    (∀ (settings : Settings) (nl : List Row) (su : String)
        (ad md : List (String × String)),
      get_prediction_type settings.predictionSettings = "POINT" →
      create_propagation_request nl settings su ad md =
        Except.error "Cannot create POINT simulations") ∧
    (∀ (acc : List PropagationScenario) (bs : BaseStation) (ue : UserEquipment)
        (mu : String),
      ue.type_ ≠ "POINT" →
      (∃ p ∈ acc, is_same_base_station p.baseStation bs = true) →
      addPropagation bs ue mu acc =
        Except.error "Cannot create point to multi points simulations") ∧
    (∀ (network : Row) (su : String) (settings : Settings)
        (ad : List (String × String)) (ue : UserEquipment),
      settings.predictionSettings.type_ ≠ some "POINT" →
      fill_user_equipment network su settings ad = Except.ok ue →
      ue.type_ = "AREA") := by
  refine ⟨?_, ?_, ?_⟩
  · intro settings nl su ad md hpt
    simp [create_propagation_request, hpt]
  · intro acc bs ue mu hne
    induction acc with
    | nil => intro hex; simp at hex
    | cons q rest ih =>
      intro hex
      obtain ⟨p, hp, hsame⟩ := hex
      rcases List.mem_cons.mp hp with rfl | hp2
      · simp [addPropagation, hsame, hne]
      · by_cases hq : is_same_base_station q.baseStation bs = true
        · simp [addPropagation, hq, hne]
        · have hrest := ih ⟨p, hp2, hsame⟩
          simp [addPropagation, hq, hrest, Except.map]
  · intro network su settings ad ue hne h
    simp only [fill_user_equipment, Bind.bind, Pure.pure] at h
    obtain ⟨desc, hdesc, h⟩ := bindOkElim h
    obtain ⟨zm, hzm, h⟩ := bindOkElim h
    rw [if_neg hne] at h
    split at h
    · exact absurd h (by simp)
    · obtain ⟨nm, hnm, h⟩ := bindOkElim h
      obtain ⟨resq, hresq, h⟩ := bindOkElim h
      obtain ⟨txq, htxq, h⟩ := bindOkElim h
      obtain ⟨tyq, htyq, h⟩ := bindOkElim h
      obtain ⟨radq, hradq, h⟩ := bindOkElim h
      simp only [Except.pure, Except.ok.injEq] at h
      simp [← h]

/-- C1, witness: the amended facts at concrete inputs: POINT settings
are rejected; a non-POINT equipment meeting a scenario with the
attribute-wise same base station aborts; the C1 row under AREA settings
builds an AREA equipment. -/
theorem claim1_witness :
    create_propagation_request [] pointSettings "sess" [] [] =
      Except.error "Cannot create POINT simulations" ∧
    addPropagation c1BS c1UE "u1"
        [{ baseStation := c1BS, userEquipments := [c1UE],
           propagationModelUuid := "u1" }] =
      Except.error "Cannot create point to multi points simulations" ∧
    (ueOf (fill_user_equipment c1Row "sess" (areaSettings false) [])).type_ =
      "AREA" := by
  refine ⟨?_, ?_, ?_⟩
  · exact claim1_amended.1 pointSettings [] "sess" [] [] rfl
  · refine claim1_amended.2.1 _ c1BS c1UE "u1" (by decide) ?_
    refine ⟨_, List.mem_singleton_self _, ?_⟩
    simp [is_same_base_station, c1BS]
  · have h3 := claim1_amended.2.2 c1Row "sess" (areaSettings false) [] c1UE
      (by decide) c1_fill_ue
    rw [c1_fill_ue]
    simpa [ueOf] using h3

end ClientSimulations
